import Mathlib

/-!
Shallow embedding of the four ledger contracts of the IP-management
repository: `IPRegistry`, `GDPRCompliance`, `OwnershipManagement` and
`Licensing` (Solidity ^0.8.17).  Solidity mappings are modelled as
association lists with a total default-returning lookup (every key of a
Solidity mapping reads as the zero value of its type); `keccak256` of a
packed tuple is modelled as the tuple itself (injective id derivation);
`require` failures become typed errors of an `Except`, and a failed call
reverts: the caller keeps the pre-call state (`applyOp`).  `msg.sender`
is an explicit `caller` argument; cross-contract calls pass the calling
contract's address (`Config.own`, `Config.lic`) as the inner caller,
exactly as the EVM does.  `block.timestamp` is an explicit `t : Nat`.
-/

set_option linter.unusedVariables false
set_option linter.unreachableTactic false
set_option linter.unusedTactic false

/-- Actor / contract addresses; `0` is Solidity's `address(0)`. -/
abbrev Address := Nat

/-- Role identifiers; keccak of the role-name string is modelled by the
string itself. -/
abbrev Role := String

def DATA_CONTROLLER_ROLE : Role := "DATA_CONTROLLER"

def DATA_PROCESSOR_ROLE : Role := "DATA_PROCESSOR"

/-- `2^256`, the wrap bound of `uint256`; Solidity 0.8 checked addition
reverts instead of wrapping. -/
def UINT256 : Nat := 2 ^ 256

/-! ### Association-list model of Solidity mappings -/

/-- Total lookup with default, mirroring a Solidity mapping read. -/
def lookupD [DecidableEq K] (m : List (K × V)) (k : K) (d : V) : V :=
  match m with
  | [] => d
  | (k', v) :: rest => if k' = k then v else lookupD rest k d

/-- In-place write, mirroring a Solidity mapping store. -/
def insertA [DecidableEq K] (m : List (K × V)) (k : K) (v : V) :
    List (K × V) :=
  match m with
  | [] => [(k, v)]
  | (k', v') :: rest =>
      if k' = k then (k, v) :: rest else (k', v') :: insertA rest k v

/-- Whether the key has ever been written. -/
def hasKey [DecidableEq K] (m : List (K × V)) (k : K) : Bool :=
  match m with
  | [] => false
  | (k', _) :: rest => if k' = k then true else hasKey rest k

theorem lookupD_insertA_self [DecidableEq K] (m : List (K × V)) (k : K)
    (v : V) (d : V) : lookupD (insertA m k v) k d = v := by
  induction m with
  | nil => simp [insertA, lookupD]
  | cons p rest ih =>
      obtain ⟨k', v'⟩ := p
      by_cases h : k' = k <;> simp [insertA, lookupD, h, ih]

theorem lookupD_insertA_ne [DecidableEq K] (m : List (K × V)) (k k' : K)
    (v : V) (d : V) (hne : k' ≠ k) :
    lookupD (insertA m k v) k' d = lookupD m k' d := by
  induction m with
  | nil =>
      simp only [insertA, lookupD]
      rw [if_neg (fun h => hne h.symm)]
  | cons p rest ih =>
      obtain ⟨k₀, v₀⟩ := p
      by_cases h : k₀ = k
      · subst h
        simp only [insertA, if_pos rfl, lookupD]
        rw [if_neg (fun h => hne h.symm), if_neg (fun h => hne h.symm)]
      · by_cases h' : k₀ = k'
        · subst h'
          simp [insertA, lookupD, h]
        · simp [insertA, lookupD, h, h', ih]

theorem lookupD_of_hasKey_eq_false [DecidableEq K] (m : List (K × V))
    (k : K) (d : V) (h : hasKey m k = false) : lookupD m k d = d := by
  induction m with
  | nil => rfl
  | cons p rest ih =>
      obtain ⟨k', v'⟩ := p
      by_cases hk : k' = k
      · simp [hasKey, hk] at h
      · simp [hasKey, hk] at h
        simp [lookupD, hk, ih h]

theorem insertA_insertA [DecidableEq K] (m : List (K × V)) (k : K)
    (v w : V) : insertA (insertA m k v) k w = insertA m k w := by
  induction m with
  | nil => simp [insertA]
  | cons p rest ih =>
      obtain ⟨k', v'⟩ := p
      by_cases h : k' = k <;> simp [insertA, h, ih]

theorem insertA_lookupD_self [DecidableEq K] (m : List (K × V)) (k : K)
    (d : V) (h : hasKey m k = true) : insertA m k (lookupD m k d) = m := by
  induction m with
  | nil => simp [hasKey] at h
  | cons p rest ih =>
      obtain ⟨k', v'⟩ := p
      by_cases hk : k' = k
      · subst hk
        simp [insertA, lookupD]
      · simp [hasKey, hk] at h
        simp [insertA, lookupD, hk, ih h]

theorem hasKey_insertA [DecidableEq K] (m : List (K × V)) (k k' : K)
    (v : V) : hasKey (insertA m k v) k' = (k = k' || hasKey m k') := by
  induction m with
  | nil => by_cases h : k = k' <;> simp [insertA, hasKey, h]
  | cons p rest ih =>
      obtain ⟨k₀, v₀⟩ := p
      by_cases h : k₀ = k
      · subst h
        by_cases h' : k₀ = k' <;> simp [insertA, hasKey, h']
      · by_cases h' : k₀ = k'
        · subst h'
          simp [insertA, hasKey, h]
        · simp [insertA, hasKey, h, h', ih]

/-! ### Identifiers and records -/

/-- `keccak256(abi.encodePacked(_ipfsHash, msg.sender, block.timestamp))`
modelled injectively as the packed tuple. -/
structure AssetId where
  ipfsHash : String
  registrant : Address
  time : Nat
deriving DecidableEq

/-- `IPRegistry.IPAsset`. -/
structure IPAsset where
  ipfsHash : String
  owner : Address
  registrationDate : Nat
  isActive : Bool
  assetType : String
  metadataHash : String
deriving DecidableEq

/-- The all-zero `IPAsset` a never-written mapping slot reads as. -/
def defaultAsset : IPAsset :=
  { ipfsHash := "", owner := 0, registrationDate := 0, isActive := false
    assetType := "", metadataHash := "" }

/-- `keccak256(abi.encodePacked(_assetId, msg.sender, _to, block.timestamp))`
modelled injectively as the packed tuple. -/
structure TransferId where
  assetId : AssetId
  from' : Address
  to' : Address
  time : Nat
deriving DecidableEq

/-- `OwnershipManagement.TransferRequest`. -/
structure TransferRequest where
  assetId : AssetId
  from' : Address
  to' : Address
  requestDate : Nat
  completed : Bool
  canceled : Bool
deriving DecidableEq

/-- The all-zero `TransferRequest` a never-written slot reads as. -/
def defaultRequest : TransferRequest :=
  { assetId := ⟨"", 0, 0⟩, from' := 0, to' := 0, requestDate := 0
    completed := false, canceled := false }

/-- `Licensing.LicenseType`. -/
inductive LicenseType where
  | Exclusive
  | NonExclusive
  | SingleUse
deriving DecidableEq

/-- `keccak256(abi.encodePacked(_assetId, msg.sender, _licensee, block.timestamp))`
modelled injectively as the packed tuple. -/
structure LicenseId where
  assetId : AssetId
  licensor : Address
  licensee : Address
  time : Nat
deriving DecidableEq

/-- `Licensing.LicenseAgreement`. -/
structure LicenseAgreement where
  assetId : AssetId
  licensor : Address
  licensee : Address
  startDate : Nat
  endDate : Nat
  licenseType : LicenseType
  termsHash : String
  isActive : Bool
  royaltyAmount : Nat
  royaltyPaid : Nat
deriving DecidableEq

/-- The all-zero `LicenseAgreement` a never-written slot reads as. -/
def defaultLicense : LicenseAgreement :=
  { assetId := ⟨"", 0, 0⟩, licensor := 0, licensee := 0, startDate := 0
    endDate := 0, licenseType := .Exclusive, termsHash := ""
    isActive := false, royaltyAmount := 0, royaltyPaid := 0 }

/-- Typed failure taxonomy; each `require` of the contracts maps to the
spec's failure name. `Overflow` is Solidity 0.8's checked-arithmetic
revert. -/
inductive Err where
  | NotFound
  | AlreadyRegistered
  | Unauthorized
  | InactiveAsset
  | InactiveLicense
  | InvalidRecipient
  | InvalidDateRange
  | InvalidAmount
  | AlreadyFinalized
  | AlreadyTerminated
  | Overflow
deriving DecidableEq

/-! ### Contract storage -/

/-- Storage of `GDPRCompliance`. -/
structure GdprState where
  roles : List ((Address × Role) × Bool)
  subjectAssets : List (Address × List AssetId)
  assetControllers : List (AssetId × Address)
  logicallyDeleted : List (AssetId × Bool)
deriving DecidableEq

/-- Storage of `IPRegistry`. -/
structure RegistryState where
  ipAssets : List (AssetId × IPAsset)
  ownerAssets : List (Address × List AssetId)
deriving DecidableEq

/-- Storage of `OwnershipManagement`. -/
structure OwnershipState where
  transferRequests : List (TransferId × TransferRequest)
  pendingReceivedTransfers : List (Address × List TransferId)
deriving DecidableEq

/-- Storage of `Licensing`. -/
structure LicensingState where
  licenses : List (LicenseId × LicenseAgreement)
  licensorLicenses : List (Address × List LicenseId)
  licenseeLicenses : List (Address × List LicenseId)
deriving DecidableEq

/-- The combined ledger state of the four deployed contracts. -/
structure Sys where
  gdpr : GdprState
  registry : RegistryState
  ownership : OwnershipState
  licensing : LicensingState
deriving DecidableEq

/-- Deployment configuration: the addresses under which the
`OwnershipManagement` and `Licensing` contracts themselves appear as
`msg.sender` of their cross-contract calls. -/
structure Config where
  own : Address
  lic : Address
deriving DecidableEq

/-- State after deployment: all mappings empty except that the
`GDPRCompliance` constructor grants `DATA_CONTROLLER` to its deployer. -/
def initSys (deployer : Address) : Sys :=
  { gdpr :=
      { roles := [((deployer, DATA_CONTROLLER_ROLE), true)]
        subjectAssets := [], assetControllers := [], logicallyDeleted := [] }
    registry := { ipAssets := [], ownerAssets := [] }
    ownership := { transferRequests := [], pendingReceivedTransfers := [] }
    licensing :=
      { licenses := [], licensorLicenses := [], licenseeLicenses := [] } }

/-! ### GDPRCompliance functions -/

/-- `GDPRCompliance.hasRole`. -/
def hasRole (g : GdprState) (account : Address) (role : Role) : Bool :=
  lookupD g.roles (account, role) false

/-- `GDPRCompliance.isDataController`. -/
def isDataController (g : GdprState) (account : Address) : Bool :=
  hasRole g account DATA_CONTROLLER_ROLE

/-- `GDPRCompliance.isDataProcessor`. -/
def isDataProcessor (g : GdprState) (account : Address) : Bool :=
  hasRole g account DATA_PROCESSOR_ROLE

/-- `GDPRCompliance.grantRole` (modifier `onlyDataController`). -/
def grantRole (g : GdprState) (caller account : Address) (role : Role) :
    Except Err GdprState :=
  if isDataController g caller then
    .ok { g with roles := insertA g.roles (account, role) true }
  else .error .Unauthorized

/-- `GDPRCompliance.revokeRole` (modifier `onlyDataController`). -/
def revokeRole (g : GdprState) (caller account : Address) (role : Role) :
    Except Err GdprState :=
  if isDataController g caller then
    .ok { g with roles := insertA g.roles (account, role) false }
  else .error .Unauthorized

/-- `GDPRCompliance.registerDataSubject`: public, no caller restriction,
no `require` — it always appends to the subject's index and always
(re)sets the asset's controller. -/
def registerDataSubject (g : GdprState) (subject : Address)
    (assetId : AssetId) : GdprState :=
  { g with
    subjectAssets := insertA g.subjectAssets subject
      (lookupD g.subjectAssets subject [] ++ [assetId])
    assetControllers := insertA g.assetControllers assetId subject }

/-- `GDPRCompliance.getAssetController`. -/
def getAssetController (g : GdprState) (assetId : AssetId) : Address :=
  lookupD g.assetControllers assetId 0

/-- `GDPRCompliance.getSubjectAssets`. -/
def getSubjectAssets (g : GdprState) (subject : Address) : List AssetId :=
  lookupD g.subjectAssets subject []

/-- `GDPRCompliance.updateDataController`. -/
def updateDataController (g : GdprState) (caller : Address)
    (assetId : AssetId) (newController : Address) : Except Err GdprState :=
  if caller = getAssetController g assetId ∨ isDataController g caller then
    .ok { g with assetControllers :=
            (insertA g.assetControllers assetId newController) }
  else .error .Unauthorized

/-- `GDPRCompliance.performLogicalDeletion`. -/
def performLogicalDeletion (g : GdprState) (caller : Address)
    (assetId : AssetId) : Except Err GdprState :=
  if caller = getAssetController g assetId ∨ isDataController g caller then
    .ok { g with logicallyDeleted := insertA g.logicallyDeleted assetId true }
  else .error .Unauthorized

/-- `GDPRCompliance.revertLogicalDeletion` (modifier `onlyDataController`). -/
def revertLogicalDeletion (g : GdprState) (caller : Address)
    (assetId : AssetId) : Except Err GdprState :=
  if isDataController g caller then
    .ok { g with logicallyDeleted := insertA g.logicallyDeleted assetId false }
  else .error .Unauthorized

/-- `GDPRCompliance.isLogicallyDeleted`. -/
def isLogicallyDeleted (g : GdprState) (assetId : AssetId) : Bool :=
  lookupD g.logicallyDeleted assetId false

/-! ### IPRegistry functions -/

/-- `IPRegistry.registerIPAsset`.  The id is
`keccak256(_ipfsHash, msg.sender, block.timestamp)`; the defensive
existence check reads `ipAssets[assetId].registrationDate == 0`; at the
end the Registry calls `gdprCompliance.registerDataSubject(msg.sender,
assetId)` (which cannot fail). -/
def registerIPAsset (s : Sys) (caller : Address) (t : Nat)
    (ipfsHash assetType metadataHash : String) :
    Except Err (AssetId × Sys) :=
  let assetId : AssetId := ⟨ipfsHash, caller, t⟩
  if (lookupD s.registry.ipAssets assetId defaultAsset).registrationDate = 0
  then
    let asset : IPAsset :=
      { ipfsHash := ipfsHash, owner := caller, registrationDate := t
        isActive := true, assetType := assetType
        metadataHash := metadataHash }
    let reg : RegistryState :=
      { ipAssets := insertA s.registry.ipAssets assetId asset
        ownerAssets := insertA s.registry.ownerAssets caller
          (lookupD s.registry.ownerAssets caller [] ++ [assetId]) }
    .ok (assetId,
      { s with registry := reg,
               gdpr := registerDataSubject s.gdpr caller assetId })
  else .error .AlreadyRegistered

/-- `IPRegistry.getIPAsset`: `(ipfsHash, owner, registrationDate,
isActive, assetType)`, `NotFound` when `registrationDate == 0`. -/
def getIPAsset (s : Sys) (assetId : AssetId) :
    Except Err (String × Address × Nat × Bool × String) :=
  let asset := lookupD s.registry.ipAssets assetId defaultAsset
  if asset.registrationDate = 0 then .error .NotFound
  else .ok (asset.ipfsHash, asset.owner, asset.registrationDate,
    asset.isActive, asset.assetType)

/-- `IPRegistry.isIPAssetActive`: total, missing id reads inactive. -/
def isIPAssetActive (s : Sys) (assetId : AssetId) : Bool :=
  (lookupD s.registry.ipAssets assetId defaultAsset).isActive

/-- `IPRegistry.deactivateIPAsset`: owner or any GDPR data controller. -/
def deactivateIPAsset (s : Sys) (caller : Address) (assetId : AssetId) :
    Except Err Sys :=
  let asset := lookupD s.registry.ipAssets assetId defaultAsset
  if asset.registrationDate = 0 then .error .NotFound
  else if asset.owner = caller ∨ isDataController s.gdpr caller then
    .ok { s with registry :=
      ({ s.registry with ipAssets :=
          (insertA s.registry.ipAssets assetId
            { asset with isActive := false }) }) }
  else .error .Unauthorized

/-- `IPRegistry.reactivateIPAsset`: owner only. -/
def reactivateIPAsset (s : Sys) (caller : Address) (assetId : AssetId) :
    Except Err Sys :=
  let asset := lookupD s.registry.ipAssets assetId defaultAsset
  if asset.registrationDate = 0 then .error .NotFound
  else if asset.owner = caller then
    .ok { s with registry :=
      ({ s.registry with ipAssets :=
          (insertA s.registry.ipAssets assetId
            { asset with isActive := true }) }) }
  else .error .Unauthorized

/-- `IPRegistry.getAssetsByOwner`. -/
def getAssetsByOwner (s : Sys) (owner : Address) : List AssetId :=
  lookupD s.registry.ownerAssets owner []

/-! ### OwnershipManagement functions -/

/-- `OwnershipManagement.requestTransfer`.  Reads the asset through
`ipRegistry.getIPAsset` (so a missing asset is `NotFound`), then checks
owner, active flag and recipient; stores the request under
`keccak256(_assetId, msg.sender, _to, block.timestamp)` with no
existence check, and appends to the recipient's pending index. -/
def requestTransfer (s : Sys) (caller : Address) (t : Nat)
    (assetId : AssetId) (to' : Address) : Except Err (TransferId × Sys) :=
  match getIPAsset s assetId with
  | .error e => .error e
  | .ok (_, currentOwner, _, isActive, _) =>
    if currentOwner = caller then
      if isActive then
        if to' ≠ 0 ∧ to' ≠ caller then
          let transferId : TransferId := ⟨assetId, caller, to', t⟩
          let req : TransferRequest :=
            { assetId := assetId, from' := caller, to' := to'
              requestDate := t, completed := false, canceled := false }
          let os : OwnershipState :=
            { transferRequests :=
                insertA s.ownership.transferRequests transferId req
              pendingReceivedTransfers :=
                insertA s.ownership.pendingReceivedTransfers to'
                  (lookupD s.ownership.pendingReceivedTransfers to' []
                    ++ [transferId]) }
          .ok (transferId, { s with ownership := os })
        else .error .InvalidRecipient
      else .error .InactiveAsset
    else .error .Unauthorized

/-- `OwnershipManagement.acceptTransfer`.  Marks `completed`, then calls
`gdprCompliance.updateDataController(request.assetId, msg.sender)` — a
cross-contract call whose inner `msg.sender` is the OwnershipManagement
contract address `cfg.own`.  The IP Registry is NOT written: the code
only notes "This would require the IP Registry to have a
transferOwnership function" and emits an event instead. -/
def acceptTransfer (cfg : Config) (s : Sys) (caller : Address)
    (transferId : TransferId) : Except Err Sys :=
  let request := lookupD s.ownership.transferRequests transferId
    defaultRequest
  if request.requestDate = 0 then .error .NotFound
  else if request.to' = caller then
    if request.completed ∨ request.canceled then .error .AlreadyFinalized
    else
      let os : OwnershipState :=
        { s.ownership with transferRequests :=
            (insertA s.ownership.transferRequests transferId
              { request with completed := true }) }
      match updateDataController s.gdpr cfg.own request.assetId caller with
      | .error e => .error e
      | .ok g => .ok { s with ownership := os, gdpr := g }
  else .error .Unauthorized

/-- `OwnershipManagement.cancelTransfer`. -/
def cancelTransfer (s : Sys) (caller : Address)
    (transferId : TransferId) : Except Err Sys :=
  let request := lookupD s.ownership.transferRequests transferId
    defaultRequest
  if request.requestDate = 0 then .error .NotFound
  else if request.from' = caller then
    if request.completed ∨ request.canceled then .error .AlreadyFinalized
    else
      .ok { s with ownership :=
        ({ s.ownership with transferRequests :=
            (insertA s.ownership.transferRequests transferId
              { request with canceled := true }) }) }
  else .error .Unauthorized

/-! ### Licensing functions -/

/-- `Licensing.createLicense`.  After its checks it stores the license
under `keccak256(_assetId, msg.sender, _licensee, block.timestamp)`
with NO existence check (an equal id silently overwrites), appends to
both per-actor indexes, and then calls
`gdprCompliance.grantRole(_licensee, keccak256("DATA_PROCESSOR"))` — a
cross-contract call whose inner `msg.sender` is the Licensing contract
address `cfg.lic`, so it reverts unless the Licensing contract itself
holds the `DATA_CONTROLLER` role. -/
def createLicense (cfg : Config) (s : Sys) (caller : Address) (t : Nat)
    (assetId : AssetId) (licensee : Address) (startDate endDate : Nat)
    (licenseType : LicenseType) (termsHash : String)
    (royaltyAmount : Nat) : Except Err (LicenseId × Sys) :=
  match getIPAsset s assetId with
  | .error e => .error e
  | .ok (_, owner, _, isActive, _) =>
    if owner = caller then
      if isActive then
        if licensee ≠ 0 then
          if t ≤ startDate then
            if endDate = 0 ∨ startDate < endDate then
              let licenseId : LicenseId := ⟨assetId, caller, licensee, t⟩
              let license : LicenseAgreement :=
                { assetId := assetId, licensor := caller
                  licensee := licensee, startDate := startDate
                  endDate := endDate, licenseType := licenseType
                  termsHash := termsHash, isActive := true
                  royaltyAmount := royaltyAmount, royaltyPaid := 0 }
              let ls : LicensingState :=
                { licenses := insertA s.licensing.licenses licenseId license
                  licensorLicenses := insertA s.licensing.licensorLicenses
                    caller (lookupD s.licensing.licensorLicenses caller []
                      ++ [licenseId])
                  licenseeLicenses := insertA s.licensing.licenseeLicenses
                    licensee (lookupD s.licensing.licenseeLicenses licensee
                      [] ++ [licenseId]) }
              match grantRole s.gdpr cfg.lic licensee DATA_PROCESSOR_ROLE
                with
              | .error e => .error e
              | .ok g => .ok (licenseId, { s with licensing := ls, gdpr := g })
            else .error .InvalidDateRange
          else .error .InvalidDateRange
        else .error .InvalidRecipient
      else .error .InactiveAsset
    else .error .Unauthorized

/-- `Licensing.terminateLicense`: licensor or licensee; terminal. -/
def terminateLicense (s : Sys) (caller : Address) (licenseId : LicenseId) :
    Except Err Sys :=
  let license := lookupD s.licensing.licenses licenseId defaultLicense
  if license.startDate = 0 then .error .NotFound
  else if license.licensor = caller ∨ license.licensee = caller then
    if license.isActive then
      .ok { s with licensing :=
        ({ s.licensing with licenses :=
            (insertA s.licensing.licenses licenseId
              { license with isActive := false }) }) }
    else .error .AlreadyTerminated
  else .error .Unauthorized

/-- `Licensing.payRoyalty`: `license.royaltyPaid += msg.value`, with
Solidity 0.8's checked addition (reverts on `uint256` overflow); the
ether forward to the licensor is the spec's external value-transfer
primitive and holds no modelled state. -/
def payRoyalty (s : Sys) (caller : Address) (licenseId : LicenseId)
    (amount : Nat) : Except Err Sys :=
  let license := lookupD s.licensing.licenses licenseId defaultLicense
  if license.startDate = 0 then .error .NotFound
  else if license.isActive then
    if 0 < amount then
      if license.royaltyPaid + amount < UINT256 then
        .ok { s with licensing :=
          ({ s.licensing with licenses :=
              (insertA s.licensing.licenses licenseId
                { license with
                    royaltyPaid := license.royaltyPaid + amount }) }) }
      else .error .Overflow
    else .error .InvalidAmount
  else .error .InactiveLicense

/-- `Licensing.isLicenseValid`: total; false when the slot is unwritten
(`startDate == 0`) or inactive, false strictly before `startDate`,
false strictly after a nonzero `endDate`, true otherwise. -/
def isLicenseValid (s : Sys) (now : Nat) (licenseId : LicenseId) : Bool :=
  let license := lookupD s.licensing.licenses licenseId defaultLicense
  if license.startDate = 0 || !license.isActive then false
  else if now < license.startDate then false
  else if license.endDate > 0 && license.endDate < now then false
  else true

/-- `Licensing.getLicensorLicenses`. -/
def getLicensorLicenses (s : Sys) (licensor : Address) : List LicenseId :=
  lookupD s.licensing.licensorLicenses licensor []

/-- `Licensing.getLicenseeLicenses`. -/
def getLicenseeLicenses (s : Sys) (licensee : Address) : List LicenseId :=
  lookupD s.licensing.licenseeLicenses licensee []

/-! ### Transactions and traces -/

/-- One public mutating entry point of the four contracts, with explicit
`msg.sender` and `block.timestamp` where the code reads them. -/
inductive Op where
  | register (caller : Address) (t : Nat)
      (ipfsHash assetType metadataHash : String)
  | deactivate (caller : Address) (assetId : AssetId)
  | reactivate (caller : Address) (assetId : AssetId)
  | request (caller : Address) (t : Nat) (assetId : AssetId) (to' : Address)
  | accept (caller : Address) (transferId : TransferId)
  | cancel (caller : Address) (transferId : TransferId)
  | createLic (caller : Address) (t : Nat) (assetId : AssetId)
      (licensee : Address) (startDate endDate : Nat)
      (licenseType : LicenseType) (termsHash : String) (royaltyAmount : Nat)
  | terminate (caller : Address) (licenseId : LicenseId)
  | pay (caller : Address) (licenseId : LicenseId) (amount : Nat)
  | gGrant (caller account : Address) (role : Role)
  | gRevoke (caller account : Address) (role : Role)
  | gRegisterSubject (subject : Address) (assetId : AssetId)
  | gUpdateController (caller : Address) (assetId : AssetId)
      (newController : Address)
  | gPerformDeletion (caller : Address) (assetId : AssetId)
  | gRevertDeletion (caller : Address) (assetId : AssetId)
deriving DecidableEq

/-- Run one transaction. -/
def execOp (cfg : Config) (o : Op) (s : Sys) : Except Err Sys :=
  match o with
  | .register caller t h ty mh => (registerIPAsset s caller t h ty mh).map (·.2)
  | .deactivate caller a => deactivateIPAsset s caller a
  | .reactivate caller a => reactivateIPAsset s caller a
  | .request caller t a to' => (requestTransfer s caller t a to').map (·.2)
  | .accept caller tid => acceptTransfer cfg s caller tid
  | .cancel caller tid => cancelTransfer s caller tid
  | .createLic caller t a lc sd ed ty tm ra =>
      (createLicense cfg s caller t a lc sd ed ty tm ra).map (·.2)
  | .terminate caller lid => terminateLicense s caller lid
  | .pay caller lid amt => payRoyalty s caller lid amt
  | .gGrant caller acct r =>
      (grantRole s.gdpr caller acct r).map (fun g => { s with gdpr := g })
  | .gRevoke caller acct r =>
      (revokeRole s.gdpr caller acct r).map (fun g => { s with gdpr := g })
  | .gRegisterSubject subj a =>
      .ok { s with gdpr := registerDataSubject s.gdpr subj a }
  | .gUpdateController caller a nc =>
      (updateDataController s.gdpr caller a nc).map
        (fun g => { s with gdpr := g })
  | .gPerformDeletion caller a =>
      (performLogicalDeletion s.gdpr caller a).map
        (fun g => { s with gdpr := g })
  | .gRevertDeletion caller a =>
      (revertLogicalDeletion s.gdpr caller a).map
        (fun g => { s with gdpr := g })

/-- Did the transaction commit? -/
def isOkB : Except Err Sys → Bool
  | .ok _ => true
  | .error _ => false

/-- Ledger semantics of a failed transaction: full revert, the pre-call
state is kept. -/
def applyOp (cfg : Config) (o : Op) (s : Sys) : Sys :=
  match execOp cfg o s with
  | .ok s' => s'
  | .error _ => s

/-- Run a serialized transaction list. -/
def runOps (cfg : Config) (s : Sys) : List Op → Sys
  | [] => s
  | o :: rest => runOps cfg (applyOp cfg o s) rest

theorem applyOp_of_error (cfg : Config) (o : Op) (s : Sys) (e : Err)
    (h : execOp cfg o s = .error e) : applyOp cfg o s = s := by
  simp [applyOp, h]

theorem applyOp_of_ok (cfg : Config) (o : Op) (s : Sys) (s' : Sys)
    (h : execOp cfg o s = .ok s') : applyOp cfg o s = s' := by
  simp [applyOp, h]

/-! ### Claim C2 -/

/-- C2 counterexample: `registerDataSubject` is not idempotent and does
not protect an already-set controller.  Calling it twice with the same
`(subject, assetId)` leaves the asset id twice in the subject's index,
and a call for an asset whose controller is already set (to `5`)
replaces that controller (with `6`). -/
theorem C2_counterexample :
    (getSubjectAssets
      (registerDataSubject
        (registerDataSubject (initSys 1).gdpr 5 ⟨"h1", 2, 5⟩) 5 ⟨"h1", 2, 5⟩)
      5 = [⟨"h1", 2, 5⟩, ⟨"h1", 2, 5⟩]) ∧
    getAssetController
      (registerDataSubject (initSys 1).gdpr 5 ⟨"h1", 2, 5⟩) ⟨"h1", 2, 5⟩
      = 5 ∧
    getAssetController
      (registerDataSubject
        (registerDataSubject (initSys 1).gdpr 5 ⟨"h1", 2, 5⟩) 6 ⟨"h1", 2, 5⟩)
      ⟨"h1", 2, 5⟩ = 6 := by
  decide

/-- C2 (amended): `registerDataSubject` unconditionally appends the
asset id to the subject's index — so a repeated identical call leaves a
duplicate entry — and unconditionally sets the asset's controller to
the given subject, replacing any controller that was already set. -/
theorem registerDataSubject_appends_and_overwrites
    (g : GdprState) (subject other : Address) (a : AssetId) :
    getSubjectAssets (registerDataSubject g subject a) subject
      = getSubjectAssets g subject ++ [a] ∧
    getSubjectAssets
      (registerDataSubject (registerDataSubject g subject a) subject a)
      subject = getSubjectAssets g subject ++ [a, a] ∧
    getAssetController (registerDataSubject g other a) a = other := by
  refine ⟨?_, ?_, ?_⟩ <;>
    simp [registerDataSubject, getSubjectAssets, getAssetController,
      lookupD_insertA_self]

/-! ### Claim C9 -/

/-- C9: `createLicense` ends with
`gdprCompliance.grantRole(_licensee, keccak256("DATA_PROCESSOR"))`, and
inside that call `msg.sender` is the Licensing contract itself
(`cfg.lic`), not the end caller.  Hence when the Licensing contract
does not hold the `DATA_CONTROLLER` role, every `createLicense`
invocation fails — whatever the end caller's own roles — and, the
transaction reverting, no license record, index entry, or role
assignment is created. -/
theorem createLicense_needs_contract_controller_role
    (cfg : Config) (s : Sys) (caller : Address) (t : Nat) (a : AssetId)
    (licensee : Address) (startDate endDate : Nat) (ty : LicenseType)
    (terms : String) (royaltyAmount : Nat)
    (h : isDataController s.gdpr cfg.lic = false) :
    isOkB (execOp cfg
      (.createLic caller t a licensee startDate endDate ty terms
        royaltyAmount) s) = false ∧
    applyOp cfg
      (.createLic caller t a licensee startDate endDate ty terms
        royaltyAmount) s = s := by
  have hmain : ∀ r, createLicense cfg s caller t a licensee startDate endDate
      ty terms royaltyAmount ≠ .ok r := by
    intro r hr
    unfold createLicense at hr
    cases hg : getIPAsset s a with
    | error e => rw [hg] at hr; exact Except.noConfusion hr
    | ok v =>
        rw [hg] at hr
        obtain ⟨v1, v2, v3, v4, v5⟩ := v
        simp only at hr
        split at hr
        · split at hr
          · split at hr
            · split at hr
              · split at hr
                · simp only [grantRole, h, if_false] at hr
                  exact Except.noConfusion hr
                · exact Except.noConfusion hr
              · exact Except.noConfusion hr
            · exact Except.noConfusion hr
          · exact Except.noConfusion hr
        · exact Except.noConfusion hr
  constructor
  · simp only [execOp]
    cases hc : createLicense cfg s caller t a licensee startDate endDate ty
        terms royaltyAmount with
    | error e => simp [Except.map, isOkB, hc]
    | ok r => exact absurd hc (hmain r)
  · simp only [applyOp, execOp]
    cases hc : createLicense cfg s caller t a licensee startDate endDate ty
        terms royaltyAmount with
    | error e => simp [Except.map, hc]
    | ok r => exact absurd hc (hmain r)

/-- C9 witness: asset `⟨"h1", 2, 5⟩` is registered and active, its owner
`2` is the caller and even holds the `DATA_CONTROLLER` role itself, the
licensee and dates are valid — yet `createLicense` fails because the
Licensing contract (address 60) lacks the role. -/
theorem createLicense_needs_contract_controller_role_witness :
    isOkB (execOp ⟨50, 60⟩
      (.createLic 2 5 ⟨"h1", 2, 5⟩ 3 6 10 .NonExclusive "terms" 100)
      (runOps ⟨50, 60⟩ (initSys 1)
        [.register 2 5 "h1" "Copyright" "m1",
         .gGrant 1 2 DATA_CONTROLLER_ROLE])) = false ∧
    applyOp ⟨50, 60⟩
      (.createLic 2 5 ⟨"h1", 2, 5⟩ 3 6 10 .NonExclusive "terms" 100)
      (runOps ⟨50, 60⟩ (initSys 1)
        [.register 2 5 "h1" "Copyright" "m1",
         .gGrant 1 2 DATA_CONTROLLER_ROLE])
      = runOps ⟨50, 60⟩ (initSys 1)
        [.register 2 5 "h1" "Copyright" "m1",
         .gGrant 1 2 DATA_CONTROLLER_ROLE] :=
  createLicense_needs_contract_controller_role ⟨50, 60⟩ _ 2 5 ⟨"h1", 2, 5⟩
    3 6 10 .NonExclusive "terms" 100 (by decide)

/-! ### Claim C1 -/

/-- C1 counterexample: a pending transfer of asset `⟨"h1", 2, 5⟩` from
owner `2` to recipient `3` is accepted by `3` and the call commits (the
OwnershipManagement contract, address 50, was granted the controller
role so its `updateDataController` call succeeds) — yet the Registry
still reports owner `2`, not `3`: `acceptTransfer` never writes the
Registry, so `get(assetId).owner = to` fails. -/
theorem C1_counterexample :
    (lookupD ((runOps ⟨50, 60⟩ (initSys 1)
        [.gGrant 1 50 DATA_CONTROLLER_ROLE,
         .register 2 5 "h1" "Copyright" "m1",
         .request 2 5 ⟨"h1", 2, 5⟩ 3]).ownership.transferRequests)
      ⟨⟨"h1", 2, 5⟩, 2, 3, 5⟩ defaultRequest).to' = 3 ∧
    isOkB (execOp ⟨50, 60⟩ (.accept 3 ⟨⟨"h1", 2, 5⟩, 2, 3, 5⟩)
      (runOps ⟨50, 60⟩ (initSys 1)
        [.gGrant 1 50 DATA_CONTROLLER_ROLE,
         .register 2 5 "h1" "Copyright" "m1",
         .request 2 5 ⟨"h1", 2, 5⟩ 3])) = true ∧
    getAssetController (applyOp ⟨50, 60⟩ (.accept 3 ⟨⟨"h1", 2, 5⟩, 2, 3, 5⟩)
      (runOps ⟨50, 60⟩ (initSys 1)
        [.gGrant 1 50 DATA_CONTROLLER_ROLE,
         .register 2 5 "h1" "Copyright" "m1",
         .request 2 5 ⟨"h1", 2, 5⟩ 3])).gdpr ⟨"h1", 2, 5⟩ = 3 ∧
    (lookupD (applyOp ⟨50, 60⟩ (.accept 3 ⟨⟨"h1", 2, 5⟩, 2, 3, 5⟩)
      (runOps ⟨50, 60⟩ (initSys 1)
        [.gGrant 1 50 DATA_CONTROLLER_ROLE,
         .register 2 5 "h1" "Copyright" "m1",
         .request 2 5 ⟨"h1", 2, 5⟩ 3])).registry.ipAssets
      ⟨"h1", 2, 5⟩ defaultAsset).owner = 2 ∧
    (2 : Address) ≠ 3 := by
  decide

/-- C1 (amended): after a successful `acceptTransfer(T)` called by
`T.to`, the request is completed and the Access-Control (GDPR)
controller recorded for `T.assetId` equals `T.to` — but the Asset
Registry's state, in particular `get(T.assetId).owner`, is unchanged:
the code never performs the Registry owner mutation (it only emits an
event in its place). -/
theorem acceptTransfer_controller_yes_owner_no
    (cfg : Config) (s s' : Sys) (caller : Address) (tid : TransferId)
    (h : execOp cfg (.accept caller tid) s = .ok s') :
    (lookupD s.ownership.transferRequests tid defaultRequest).to'
      = caller ∧
    (lookupD s'.ownership.transferRequests tid defaultRequest).completed
      = true ∧
    getAssetController s'.gdpr
      (lookupD s.ownership.transferRequests tid defaultRequest).assetId
      = caller ∧
    s'.registry = s.registry := by
  simp only [execOp, acceptTransfer] at h
  split at h
  · exact Except.noConfusion h
  · split at h
    · split at h
      · exact Except.noConfusion h
      · rename_i hreq hto hfin
        split at h
        · exact Except.noConfusion h
        · rename_i g heq
          simp only [updateDataController] at heq
          split at heq
          · injection heq with hg
            injection h with h'
            subst h' hg
            refine ⟨hto, ?_, ?_, rfl⟩
            · simp [lookupD_insertA_self]
            · simp [getAssetController, lookupD_insertA_self]
          · exact Except.noConfusion heq
    · exact Except.noConfusion h

/-- C1 witness for the amended theorem, at the counterexample's
scenario. -/
theorem acceptTransfer_controller_yes_owner_no_witness :
    (lookupD (runOps ⟨50, 60⟩ (initSys 1)
        [.gGrant 1 50 DATA_CONTROLLER_ROLE,
         .register 2 5 "h1" "Copyright" "m1",
         .request 2 5 ⟨"h1", 2, 5⟩ 3]).ownership.transferRequests
      ⟨⟨"h1", 2, 5⟩, 2, 3, 5⟩ defaultRequest).to' = 3 ∧
    (lookupD (applyOp ⟨50, 60⟩ (.accept 3 ⟨⟨"h1", 2, 5⟩, 2, 3, 5⟩)
        (runOps ⟨50, 60⟩ (initSys 1)
          [.gGrant 1 50 DATA_CONTROLLER_ROLE,
           .register 2 5 "h1" "Copyright" "m1",
           .request 2 5 ⟨"h1", 2, 5⟩ 3])).ownership.transferRequests
      ⟨⟨"h1", 2, 5⟩, 2, 3, 5⟩ defaultRequest).completed = true ∧
    getAssetController (applyOp ⟨50, 60⟩ (.accept 3 ⟨⟨"h1", 2, 5⟩, 2, 3, 5⟩)
        (runOps ⟨50, 60⟩ (initSys 1)
          [.gGrant 1 50 DATA_CONTROLLER_ROLE,
           .register 2 5 "h1" "Copyright" "m1",
           .request 2 5 ⟨"h1", 2, 5⟩ 3])).gdpr
      (lookupD (runOps ⟨50, 60⟩ (initSys 1)
          [.gGrant 1 50 DATA_CONTROLLER_ROLE,
           .register 2 5 "h1" "Copyright" "m1",
           .request 2 5 ⟨"h1", 2, 5⟩ 3]).ownership.transferRequests
        ⟨⟨"h1", 2, 5⟩, 2, 3, 5⟩ defaultRequest).assetId = 3 ∧
    (applyOp ⟨50, 60⟩ (.accept 3 ⟨⟨"h1", 2, 5⟩, 2, 3, 5⟩)
        (runOps ⟨50, 60⟩ (initSys 1)
          [.gGrant 1 50 DATA_CONTROLLER_ROLE,
           .register 2 5 "h1" "Copyright" "m1",
           .request 2 5 ⟨"h1", 2, 5⟩ 3])).registry
      = (runOps ⟨50, 60⟩ (initSys 1)
          [.gGrant 1 50 DATA_CONTROLLER_ROLE,
           .register 2 5 "h1" "Copyright" "m1",
           .request 2 5 ⟨"h1", 2, 5⟩ 3]).registry :=
  acceptTransfer_controller_yes_owner_no ⟨50, 60⟩ _ _ 3
    ⟨⟨"h1", 2, 5⟩, 2, 3, 5⟩ rfl

/-! ### Claim C10 -/

/-- Replacing `isActive` by its own value is the identity (structure
eta). -/
theorem IPAsset_set_isActive_self (x : IPAsset) (b : Bool)
    (h : x.isActive = b) : { x with isActive := b } = x := by
  cases x
  cases h
  rfl

/-- C10 counterexample: asset `⟨"h1", 2, 5⟩` is registered and then
deactivated, so its record has `isActive = false`.  A further
deactivate followed by reactivate — both called by the owner `2` and
both succeeding — yields `isActive = true`: the pair does NOT restore
the record to its prior value when the asset was inactive before. -/
theorem C10_counterexample :
    (lookupD (runOps ⟨50, 60⟩ (initSys 1)
        [.register 2 5 "h1" "Copyright" "m1",
         .deactivate 2 ⟨"h1", 2, 5⟩]).registry.ipAssets
      ⟨"h1", 2, 5⟩ defaultAsset).registrationDate ≠ 0 ∧
    (lookupD (runOps ⟨50, 60⟩ (initSys 1)
        [.register 2 5 "h1" "Copyright" "m1",
         .deactivate 2 ⟨"h1", 2, 5⟩]).registry.ipAssets
      ⟨"h1", 2, 5⟩ defaultAsset).owner = 2 ∧
    (lookupD (runOps ⟨50, 60⟩ (initSys 1)
        [.register 2 5 "h1" "Copyright" "m1",
         .deactivate 2 ⟨"h1", 2, 5⟩]).registry.ipAssets
      ⟨"h1", 2, 5⟩ defaultAsset).isActive = false ∧
    isOkB (execOp ⟨50, 60⟩ (.deactivate 2 ⟨"h1", 2, 5⟩)
      (runOps ⟨50, 60⟩ (initSys 1)
        [.register 2 5 "h1" "Copyright" "m1",
         .deactivate 2 ⟨"h1", 2, 5⟩])) = true ∧
    isOkB (execOp ⟨50, 60⟩ (.reactivate 2 ⟨"h1", 2, 5⟩)
      (runOps ⟨50, 60⟩ (initSys 1)
        [.register 2 5 "h1" "Copyright" "m1",
         .deactivate 2 ⟨"h1", 2, 5⟩,
         .deactivate 2 ⟨"h1", 2, 5⟩])) = true ∧
    (lookupD (runOps ⟨50, 60⟩ (initSys 1)
        [.register 2 5 "h1" "Copyright" "m1",
         .deactivate 2 ⟨"h1", 2, 5⟩,
         .deactivate 2 ⟨"h1", 2, 5⟩,
         .reactivate 2 ⟨"h1", 2, 5⟩]).registry.ipAssets
      ⟨"h1", 2, 5⟩ defaultAsset).isActive = true := by
  decide

/-- C10 (amended): each of `deactivateIPAsset` / `reactivateIPAsset`,
when it succeeds, changes nothing except the `isActive` flag of the
targeted asset — content hash, owner, registration date, asset type,
metadata hash, every other asset's record, the owner indexes, and the
GDPR / transfer / licensing storage are all unchanged; and when the
targeted record is registered, ACTIVE, and the caller is its owner,
deactivate followed by reactivate restores the state exactly.  (When
the record was inactive beforehand the pair instead leaves it active,
as the counterexample shows.) -/
theorem deactivate_reactivate_frame_and_roundtrip
    (cfg : Config) (s : Sys) (caller : Address) (a : AssetId) :
    (∀ s', execOp cfg (.deactivate caller a) s = .ok s' →
      s'.gdpr = s.gdpr ∧ s'.ownership = s.ownership ∧
      s'.licensing = s.licensing ∧
      s'.registry.ownerAssets = s.registry.ownerAssets ∧
      (∀ a', a' ≠ a → lookupD s'.registry.ipAssets a' defaultAsset
        = lookupD s.registry.ipAssets a' defaultAsset) ∧
      lookupD s'.registry.ipAssets a defaultAsset
        = { lookupD s.registry.ipAssets a defaultAsset with
              isActive := false }) ∧
    (∀ s', execOp cfg (.reactivate caller a) s = .ok s' →
      s'.gdpr = s.gdpr ∧ s'.ownership = s.ownership ∧
      s'.licensing = s.licensing ∧
      s'.registry.ownerAssets = s.registry.ownerAssets ∧
      (∀ a', a' ≠ a → lookupD s'.registry.ipAssets a' defaultAsset
        = lookupD s.registry.ipAssets a' defaultAsset) ∧
      lookupD s'.registry.ipAssets a defaultAsset
        = { lookupD s.registry.ipAssets a defaultAsset with
              isActive := true }) ∧
    ((lookupD s.registry.ipAssets a defaultAsset).registrationDate ≠ 0 →
      (lookupD s.registry.ipAssets a defaultAsset).owner = caller →
      (lookupD s.registry.ipAssets a defaultAsset).isActive = true →
      applyOp cfg (.reactivate caller a)
        (applyOp cfg (.deactivate caller a) s) = s) := by
  refine ⟨?_, ?_, ?_⟩
  · intro s' h
    simp only [execOp, deactivateIPAsset] at h
    split at h
    · exact Except.noConfusion h
    · split at h
      · injection h with h'
        subst h'
        refine ⟨rfl, rfl, rfl, rfl, ?_, ?_⟩
        · intro a' ha'
          exact lookupD_insertA_ne _ _ _ _ _ ha'
        · exact lookupD_insertA_self _ _ _ _
      · exact Except.noConfusion h
  · intro s' h
    simp only [execOp, reactivateIPAsset] at h
    split at h
    · exact Except.noConfusion h
    · split at h
      · injection h with h'
        subst h'
        refine ⟨rfl, rfl, rfl, rfl, ?_, ?_⟩
        · intro a' ha'
          exact lookupD_insertA_ne _ _ _ _ _ ha'
        · exact lookupD_insertA_self _ _ _ _
      · exact Except.noConfusion h
  · intro hreg hown hact
    have hkey : hasKey s.registry.ipAssets a = true := by
      by_contra hk
      rw [Bool.not_eq_true] at hk
      exact hreg (by rw [lookupD_of_hasKey_eq_false _ _ _ hk]; rfl)
    have h1 : execOp cfg (.deactivate caller a) s
        = .ok { s with registry :=
            { s.registry with ipAssets :=
                (insertA s.registry.ipAssets a
                  { lookupD s.registry.ipAssets a defaultAsset with
                      isActive := false }) } } := by
      simp only [execOp, deactivateIPAsset]
      rw [if_neg hreg, if_pos (Or.inl hown)]
    rw [applyOp_of_ok _ _ _ _ h1]
    have h2 : execOp cfg (.reactivate caller a)
        { s with registry :=
            { s.registry with ipAssets :=
                (insertA s.registry.ipAssets a
                  { lookupD s.registry.ipAssets a defaultAsset with
                      isActive := false }) } }
        = .ok { s with registry :=
            { s.registry with ipAssets :=
                (insertA s.registry.ipAssets a
                  (lookupD s.registry.ipAssets a defaultAsset)) } } := by
      simp only [execOp, reactivateIPAsset, lookupD_insertA_self]
      rw [if_neg hreg, if_pos hown]
      rw [insertA_insertA]
      rw [IPAsset_set_isActive_self _ _ hact]
    rw [applyOp_of_ok _ _ _ _ h2]
    rw [insertA_lookupD_self _ _ _ hkey]

/-- C10 witness for the amended theorem: fresh registration of
`⟨"h1", 2, 5⟩` by owner `2` (active), deactivated then reactivated by
the owner; both frames and the exact roundtrip hold. -/
theorem deactivate_reactivate_frame_and_roundtrip_witness :
    applyOp ⟨50, 60⟩ (.reactivate 2 ⟨"h1", 2, 5⟩)
      (applyOp ⟨50, 60⟩ (.deactivate 2 ⟨"h1", 2, 5⟩)
        (runOps ⟨50, 60⟩ (initSys 1)
          [.register 2 5 "h1" "Copyright" "m1"]))
      = runOps ⟨50, 60⟩ (initSys 1)
          [.register 2 5 "h1" "Copyright" "m1"] :=
  (deactivate_reactivate_frame_and_roundtrip ⟨50, 60⟩
    (runOps ⟨50, 60⟩ (initSys 1) [.register 2 5 "h1" "Copyright" "m1"])
    2 ⟨"h1", 2, 5⟩).2.2 (by decide) (by decide) (by decide)

/-! ### Claim C8 -/

/-- Replace the per-asset logical-deletion flags wholesale. -/
def withDel (s : Sys) (m : List (AssetId × Bool)) : Sys :=
  { s with gdpr := { s.gdpr with logicallyDeleted := m } }

@[simp] theorem withDel_registry (s : Sys) (m : List (AssetId × Bool)) :
    (withDel s m).registry = s.registry := rfl

@[simp] theorem withDel_ownership (s : Sys) (m : List (AssetId × Bool)) :
    (withDel s m).ownership = s.ownership := rfl

@[simp] theorem withDel_licensing (s : Sys) (m : List (AssetId × Bool)) :
    (withDel s m).licensing = s.licensing := rfl

@[simp] theorem withDel_gdpr (s : Sys) (m : List (AssetId × Bool)) :
    (withDel s m).gdpr = { s.gdpr with logicallyDeleted := m } := rfl

/-- The operations of the Registry, the Transfer Manager and the
Licensing Manager (as opposed to those of the GDPR module itself). -/
def coreOp : Op → Bool
  | .register _ _ _ _ _ => true
  | .deactivate _ _ => true
  | .reactivate _ _ => true
  | .request _ _ _ _ => true
  | .accept _ _ => true
  | .cancel _ _ => true
  | .createLic _ _ _ _ _ _ _ _ _ => true
  | .terminate _ _ => true
  | .pay _ _ _ => true
  | _ => false

/-- `updateDataController` commutes with replacing the deletion-flag
map: it neither reads nor writes the flags. -/
theorem updateDataController_withDelG (g : GdprState)
    (m : List (AssetId × Bool)) (caller : Address) (a : AssetId)
    (nc : Address) :
    updateDataController { g with logicallyDeleted := m } caller a nc
      = (updateDataController g caller a nc).map
          (fun g' => { g' with logicallyDeleted := m }) := by
  simp only [updateDataController, getAssetController, isDataController,
    hasRole]
  split
  · rename_i hc
    simp [hc, Except.map]
  · rename_i hc
    simp [hc, Except.map]

/-- `grantRole` commutes with replacing the deletion-flag map. -/
theorem grantRole_withDelG (g : GdprState) (m : List (AssetId × Bool))
    (caller acct : Address) (r : Role) :
    grantRole { g with logicallyDeleted := m } caller acct r
      = (grantRole g caller acct r).map
          (fun g' => { g' with logicallyDeleted := m }) := by
  simp only [grantRole, isDataController, hasRole]
  split
  · rename_i hc
    simp [hc, Except.map]
  · rename_i hc
    simp [hc, Except.map]

/-- C8: two-run noninterference of the logical-deletion flags.  For
every Registry / Transfer-Manager / Licensing operation, executing it
in a state whose deletion-flag map is replaced by an arbitrary `m`
yields exactly the mapped outcome of executing it in the original
state: the same typed failure, or a success state with identical
non-flag contents and the flag map still `m`.  In particular the flags
gate nothing outside the GDPR module, and these operations never
modify a flag. -/
theorem core_ops_ignore_deletion_flags (cfg : Config) (o : Op) (s : Sys)
    (m : List (AssetId × Bool)) (h : coreOp o = true) :
    execOp cfg o (withDel s m)
      = (execOp cfg o s).map (fun s' => withDel s' m) := by
  cases o with
  | register caller t h1 ty mh =>
      simp only [execOp, registerIPAsset, registerDataSubject, withDel_registry]
      split
      · simp [withDel, Except.map, registerDataSubject]
      · simp [Except.map]
  | deactivate caller a =>
      simp only [execOp, deactivateIPAsset, withDel_registry, withDel_gdpr,
        isDataController, hasRole]
      split
      · simp [Except.map]
      · split
        · simp [withDel, Except.map]
        · simp [Except.map]
  | reactivate caller a =>
      simp only [execOp, reactivateIPAsset, withDel_registry]
      split
      · simp [Except.map]
      · split
        · simp [withDel, Except.map]
        · simp [Except.map]
  | request caller t a to' =>
      simp only [execOp, requestTransfer, getIPAsset, withDel_registry,
        withDel_ownership]
      split
      · simp [Except.map]
      · split
        · split
          · split
            · simp [withDel, Except.map]
            · simp [Except.map]
          · simp [Except.map]
        · simp [Except.map]
  | accept caller tid =>
      simp only [execOp, acceptTransfer, withDel_ownership, withDel_gdpr,
        updateDataController_withDelG]
      split
      · simp [Except.map]
      · split
        · split
          · simp [Except.map]
          · cases hu : updateDataController s.gdpr cfg.own
                (lookupD s.ownership.transferRequests tid
                  defaultRequest).assetId caller with
            | error e => simp [hu, Except.map]
            | ok g => simp [hu, Except.map, withDel]
        · simp [Except.map]
  | cancel caller tid =>
      simp only [execOp, cancelTransfer, withDel_ownership]
      split
      · simp [Except.map]
      · split
        · split
          · simp [Except.map]
          · simp [withDel, Except.map]
        · simp [Except.map]
  | createLic caller t a lc sd ed ty tm ra =>
      simp only [execOp, createLicense, getIPAsset, withDel_registry,
        withDel_licensing, withDel_gdpr, grantRole_withDelG]
      split
      · simp [Except.map]
      · split
        · split
          · split
            · split
              · split
                · cases hg : grantRole s.gdpr cfg.lic lc
                      DATA_PROCESSOR_ROLE with
                  | error e => simp [hg, Except.map]
                  | ok g => simp [hg, Except.map, withDel]
                · simp [Except.map]
              · simp [Except.map]
            · simp [Except.map]
          · simp [Except.map]
        · simp [Except.map]
  | terminate caller lid =>
      simp only [execOp, terminateLicense, withDel_licensing]
      split
      · simp [Except.map]
      · split
        · split
          · simp [withDel, Except.map]
          · simp [Except.map]
        · simp [Except.map]
  | pay caller lid amt =>
      simp only [execOp, payRoyalty, withDel_licensing]
      split
      · simp [Except.map]
      · split
        · split
          · split
            · simp [withDel, Except.map]
            · simp [Except.map]
          · simp [Except.map]
        · simp [Except.map]
  | gGrant caller acct r => simp [coreOp] at h
  | gRevoke caller acct r => simp [coreOp] at h
  | gRegisterSubject subj a => simp [coreOp] at h
  | gUpdateController caller a nc => simp [coreOp] at h
  | gPerformDeletion caller a => simp [coreOp] at h
  | gRevertDeletion caller a => simp [coreOp] at h

/-- C8 witness: a concrete core operation (registration by actor `2`)
run with the deletion flag of its asset preset, versus clear. -/
theorem core_ops_ignore_deletion_flags_witness :
    execOp ⟨50, 60⟩ (.register 2 5 "h1" "Copyright" "m1")
      (withDel (initSys 1) [(⟨"h1", 2, 5⟩, true)])
      = (execOp ⟨50, 60⟩ (.register 2 5 "h1" "Copyright" "m1") (initSys 1)).map
          (fun s' => withDel s' [(⟨"h1", 2, 5⟩, true)]) :=
  core_ops_ignore_deletion_flags ⟨50, 60⟩ (.register 2 5 "h1" "Copyright" "m1")
    (initSys 1) [(⟨"h1", 2, 5⟩, true)] (by decide)

/-! ### Trace infrastructure: which operations write which mapping -/

/-- Operations that write `IPRegistry.ipAssets`. -/
def touchesRegistry : Op → Bool
  | .register _ _ _ _ _ => true
  | .deactivate _ _ => true
  | .reactivate _ _ => true
  | _ => false

/-- Operations that write `OwnershipManagement.transferRequests`. -/
def touchesTransfers : Op → Bool
  | .request _ _ _ _ => true
  | .accept _ _ => true
  | .cancel _ _ => true
  | _ => false

/-- Operations that write `Licensing.licenses`. -/
def touchesLicenses : Op → Bool
  | .createLic _ _ _ _ _ _ _ _ _ => true
  | .terminate _ _ => true
  | .pay _ _ _ => true
  | _ => false

/-- Operations that write `GDPRCompliance.assetControllers`. -/
def touchesControllers : Op → Bool
  | .register _ _ _ _ _ => true
  | .accept _ _ => true
  | .gRegisterSubject _ _ => true
  | .gUpdateController _ _ _ => true
  | _ => false

theorem ipAssets_unchanged (cfg : Config) (o : Op) (s s' : Sys)
    (hn : touchesRegistry o = false) (hx : execOp cfg o s = .ok s') :
    s'.registry.ipAssets = s.registry.ipAssets := by
  cases o
  case register c t h1 ty mh => simp [touchesRegistry] at hn
  case deactivate c a => simp [touchesRegistry] at hn
  case reactivate c a => simp [touchesRegistry] at hn
  all_goals
    simp only [execOp, requestTransfer, acceptTransfer, cancelTransfer,
      createLicense, terminateLicense, payRoyalty, grantRole, revokeRole,
      registerDataSubject, updateDataController, performLogicalDeletion,
      revertLogicalDeletion, getIPAsset, Except.map] at hx
  all_goals repeat' split at hx
  all_goals
    first
      | exact Except.noConfusion hx
      | rfl
      | (injection hx with hx'; subst hx'; rfl)
      | ((rename_i v heq; repeat' split at heq) <;>
          first
            | exact Except.noConfusion heq
            | (injection heq with heq'; subst heq'; rfl)
            | rfl)
      | ((injection hx with hx'; subst hx');
         (rename_i v heq; repeat' split at heq) <;>
          first
            | exact Except.noConfusion heq
            | (injection heq with heq'; subst heq'; rfl)
            | ((injection heq with heq'; subst heq');
               (rename_i v2 heq2; repeat' split at heq2) <;>
                first
                  | exact Except.noConfusion heq2
                  | (injection heq2 with heq2'; subst heq2'; rfl)
                  | rfl)
            | rfl)

theorem transferRequests_unchanged (cfg : Config) (o : Op) (s s' : Sys)
    (hn : touchesTransfers o = false) (hx : execOp cfg o s = .ok s') :
    s'.ownership.transferRequests = s.ownership.transferRequests := by
  cases o
  case request c t a to' => simp [touchesTransfers] at hn
  case accept c tid => simp [touchesTransfers] at hn
  case cancel c tid => simp [touchesTransfers] at hn
  all_goals
    simp only [execOp, registerIPAsset, deactivateIPAsset, reactivateIPAsset,
      createLicense, terminateLicense, payRoyalty, grantRole, revokeRole,
      registerDataSubject, updateDataController, performLogicalDeletion,
      revertLogicalDeletion, getIPAsset, Except.map] at hx
  all_goals repeat' split at hx
  all_goals
    first
      | exact Except.noConfusion hx
      | rfl
      | (injection hx with hx'; subst hx'; rfl)
      | ((rename_i v heq; repeat' split at heq) <;>
          first
            | exact Except.noConfusion heq
            | (injection heq with heq'; subst heq'; rfl)
            | rfl)
      | ((injection hx with hx'; subst hx');
         (rename_i v heq; repeat' split at heq) <;>
          first
            | exact Except.noConfusion heq
            | (injection heq with heq'; subst heq'; rfl)
            | ((injection heq with heq'; subst heq');
               (rename_i v2 heq2; repeat' split at heq2) <;>
                first
                  | exact Except.noConfusion heq2
                  | (injection heq2 with heq2'; subst heq2'; rfl)
                  | rfl)
            | rfl)

theorem licenses_unchanged (cfg : Config) (o : Op) (s s' : Sys)
    (hn : touchesLicenses o = false) (hx : execOp cfg o s = .ok s') :
    s'.licensing.licenses = s.licensing.licenses := by
  cases o
  case createLic c t a lc sd ed ty tm ra => simp [touchesLicenses] at hn
  case terminate c lid => simp [touchesLicenses] at hn
  case pay c lid amt => simp [touchesLicenses] at hn
  all_goals
    simp only [execOp, registerIPAsset, deactivateIPAsset, reactivateIPAsset,
      requestTransfer, acceptTransfer, cancelTransfer, grantRole, revokeRole,
      registerDataSubject, updateDataController, performLogicalDeletion,
      revertLogicalDeletion, getIPAsset, Except.map] at hx
  all_goals repeat' split at hx
  all_goals
    first
      | exact Except.noConfusion hx
      | rfl
      | (injection hx with hx'; subst hx'; rfl)
      | ((rename_i v heq; repeat' split at heq) <;>
          first
            | exact Except.noConfusion heq
            | (injection heq with heq'; subst heq'; rfl)
            | rfl)
      | ((injection hx with hx'; subst hx');
         (rename_i v heq; repeat' split at heq) <;>
          first
            | exact Except.noConfusion heq
            | (injection heq with heq'; subst heq'; rfl)
            | ((injection heq with heq'; subst heq');
               (rename_i v2 heq2; repeat' split at heq2) <;>
                first
                  | exact Except.noConfusion heq2
                  | (injection heq2 with heq2'; subst heq2'; rfl)
                  | rfl)
            | rfl)

theorem assetControllers_unchanged (cfg : Config) (o : Op) (s s' : Sys)
    (hn : touchesControllers o = false) (hx : execOp cfg o s = .ok s') :
    s'.gdpr.assetControllers = s.gdpr.assetControllers := by
  cases o
  case register c t h1 ty mh => simp [touchesControllers] at hn
  case accept c tid => simp [touchesControllers] at hn
  case gRegisterSubject subj a => simp [touchesControllers] at hn
  case gUpdateController c a nc => simp [touchesControllers] at hn
  all_goals
    simp only [execOp, deactivateIPAsset, reactivateIPAsset,
      requestTransfer, cancelTransfer, createLicense, terminateLicense,
      payRoyalty, grantRole, revokeRole, performLogicalDeletion,
      revertLogicalDeletion, getIPAsset, Except.map] at hx
  all_goals repeat' split at hx
  all_goals
    first
      | exact Except.noConfusion hx
      | rfl
      | (injection hx with hx'; subst hx'; rfl)
      | ((rename_i v heq; repeat' split at heq) <;>
          first
            | exact Except.noConfusion heq
            | (injection heq with heq'; subst heq'; rfl)
            | rfl)
      | ((injection hx with hx'; subst hx');
         (rename_i v heq; repeat' split at heq) <;>
          first
            | exact Except.noConfusion heq
            | (injection heq with heq'; subst heq'; rfl)
            | ((injection heq with heq'; subst heq');
               (rename_i v2 heq2; repeat' split at heq2) <;>
                first
                  | exact Except.noConfusion heq2
                  | (injection heq2 with heq2'; subst heq2'; rfl)
                  | rfl)
            | rfl)

/-- Induction principle for serialized traces. -/
theorem runOps_preserves (cfg : Config) (P : Sys → Prop) (ops : List Op)
    (hstep : ∀ o ∈ ops, ∀ s, P s → P (applyOp cfg o s)) :
    ∀ s, P s → P (runOps cfg s ops) := by
  induction ops with
  | nil => intro s hs; exact hs
  | cons o rest ih =>
      intro s hs
      simp only [runOps]
      exact ih (fun o' ho' s₀ => hstep o' (List.mem_cons_of_mem _ ho') s₀) _
        (hstep o (List.mem_cons_self _ _) s hs)

/-! ### Claim C4 -/

/-- A successful registration stores exactly the new record under the
content-derived id. -/
theorem register_ok_lookup (cfg : Config) (caller : Address) (t : Nat)
    (h1 ty mh : String) (s s' : Sys)
    (hx : execOp cfg (.register caller t h1 ty mh) s = .ok s') :
    lookupD s'.registry.ipAssets ⟨h1, caller, t⟩ defaultAsset
      = { ipfsHash := h1, owner := caller, registrationDate := t
          isActive := true, assetType := ty, metadataHash := mh } := by
  simp only [execOp, registerIPAsset, Except.map] at hx
  repeat' split at hx
  all_goals first
    | exact Except.noConfusion hx
    | (injection hx with hx'; subst hx';
       rename_i v heq; repeat' split at heq
       all_goals first
        | exact Except.noConfusion heq
        | (injection heq with heq'; subst heq';
           exact lookupD_insertA_self _ _ _ _))

/-- No transaction un-registers an asset id: a stored record's nonzero
`registrationDate` stays nonzero (nothing in the code deletes or zeroes
a record; `registerIPAsset` at the same id fails instead of
overwriting). -/
theorem regDate_ne_zero_step (cfg : Config) (o : Op) (s : Sys) (a : AssetId)
    (h : (lookupD s.registry.ipAssets a defaultAsset).registrationDate ≠ 0) :
    (lookupD (applyOp cfg o s).registry.ipAssets a
      defaultAsset).registrationDate ≠ 0 := by
  cases hx : execOp cfg o s with
  | error e => rw [applyOp_of_error _ _ _ _ hx]; exact h
  | ok s' =>
      rw [applyOp_of_ok _ _ _ _ hx]
      by_cases ht : touchesRegistry o = true
      case neg =>
        rw [ipAssets_unchanged cfg o s s'
          (by simpa using ht) hx]
        exact h
      case pos =>
        cases o
        case register caller t h1 ty mh =>
            simp only [execOp, registerIPAsset, Except.map] at hx
            repeat' split at hx
            all_goals first
              | exact Except.noConfusion hx
              | (injection hx with hx'; subst hx';
                 rename_i v heq; repeat' split at heq
                 all_goals first
                  | exact Except.noConfusion heq
                  | (injection heq with heq'; subst heq';
                     by_cases hid : (⟨h1, caller, t⟩ : AssetId) = a
                     · subst hid; exact absurd (by assumption) h
                     · rw [lookupD_insertA_ne _ _ _ _ _
                         (fun hh => hid hh.symm)]
                       exact h))
        case deactivate caller a' =>
            simp only [execOp, deactivateIPAsset] at hx
            repeat' split at hx
            all_goals first
              | exact Except.noConfusion hx
              | (injection hx with hx'; subst hx';
                 by_cases hid : a' = a
                 · subst hid
                   rw [lookupD_insertA_self]
                   exact h
                 · rw [lookupD_insertA_ne _ _ _ _ _ (fun hh => hid hh.symm)]
                   exact h)
        case reactivate caller a' =>
            simp only [execOp, reactivateIPAsset] at hx
            repeat' split at hx
            all_goals first
              | exact Except.noConfusion hx
              | (injection hx with hx'; subst hx';
                 by_cases hid : a' = a
                 · subst hid
                   rw [lookupD_insertA_self]
                   exact h
                 · rw [lookupD_insertA_ne _ _ _ _ _ (fun hh => hid hh.symm)]
                   exact h)
        all_goals simp [touchesRegistry] at ht

/-- C4: registration ids are unique and never silently overwritten.
After a successful `register(contentHash, …)` by `caller` at a positive
ledger time `t`, the id `⟨contentHash, caller, t⟩` stays registered
through EVERY later transaction sequence, and any re-registration with
the same content hash by the same actor at the same ledger time —
i.e. with the same derived id — fails with `AlreadyRegistered` and
leaves the state (in particular the stored record) untouched.  Since
the id derivation is a deterministic function of (contentHash, actor,
time), any two successful registrations therefore return distinct
ids. -/
theorem register_unique_no_silent_overwrite
    (cfg : Config) (s : Sys) (caller : Address) (t : Nat)
    (h1 ty mh ty2 mh2 : String) (ops : List Op)
    (hpos : 0 < t)
    (hok : isOkB (execOp cfg (.register caller t h1 ty mh) s) = true) :
    execOp cfg (.register caller t h1 ty2 mh2)
        (runOps cfg (applyOp cfg (.register caller t h1 ty mh) s) ops)
      = .error .AlreadyRegistered ∧
    applyOp cfg (.register caller t h1 ty2 mh2)
        (runOps cfg (applyOp cfg (.register caller t h1 ty mh) s) ops)
      = runOps cfg (applyOp cfg (.register caller t h1 ty mh) s) ops := by
  cases hx : execOp cfg (.register caller t h1 ty mh) s with
  | error e => rw [hx] at hok; simp [isOkB] at hok
  | ok s' =>
      rw [applyOp_of_ok _ _ _ _ hx]
      have hlook := register_ok_lookup cfg caller t h1 ty mh s s' hx
      have hne : (lookupD s'.registry.ipAssets ⟨h1, caller, t⟩
          defaultAsset).registrationDate ≠ 0 := by
        rw [hlook]
        exact Nat.pos_iff_ne_zero.mp hpos
      have hrun : (lookupD (runOps cfg s' ops).registry.ipAssets
          ⟨h1, caller, t⟩ defaultAsset).registrationDate ≠ 0 :=
        runOps_preserves cfg
          (fun s₀ => (lookupD s₀.registry.ipAssets ⟨h1, caller, t⟩
            defaultAsset).registrationDate ≠ 0) ops
          (fun o _ s₀ hs₀ => regDate_ne_zero_step cfg o s₀ _ hs₀) s' hne
      have hfail : execOp cfg (.register caller t h1 ty2 mh2)
          (runOps cfg s' ops) = .error .AlreadyRegistered := by
        simp only [execOp, registerIPAsset, Except.map]
        rw [if_neg hrun]
      exact ⟨hfail, applyOp_of_error _ _ _ _ hfail⟩

/-- C4 witness: registration of `"h1"` by actor `2` at time `5`, an
unrelated deactivation in between, then the identical re-registration
attempt. -/
theorem register_unique_no_silent_overwrite_witness :
    execOp ⟨50, 60⟩ (.register 2 5 "h1" "Patent" "m2")
        (runOps ⟨50, 60⟩
          (applyOp ⟨50, 60⟩ (.register 2 5 "h1" "Copyright" "m1") (initSys 1))
          [.deactivate 2 ⟨"h1", 2, 5⟩])
      = .error .AlreadyRegistered ∧
    applyOp ⟨50, 60⟩ (.register 2 5 "h1" "Patent" "m2")
        (runOps ⟨50, 60⟩
          (applyOp ⟨50, 60⟩ (.register 2 5 "h1" "Copyright" "m1") (initSys 1))
          [.deactivate 2 ⟨"h1", 2, 5⟩])
      = runOps ⟨50, 60⟩
          (applyOp ⟨50, 60⟩ (.register 2 5 "h1" "Copyright" "m1") (initSys 1))
          [.deactivate 2 ⟨"h1", 2, 5⟩] :=
  register_unique_no_silent_overwrite ⟨50, 60⟩ (initSys 1) 2 5 "h1"
    "Copyright" "m1" "Patent" "m2" [.deactivate 2 ⟨"h1", 2, 5⟩]
    (by decide) (by decide)

/-! ### Claim C5 -/

/-- `o` cannot overwrite the stored request `tid`: it is not a
`requestTransfer` whose derived id `keccak(assetId, from, to, time)`
equals `tid`. -/
def noRewriteOf (tid : TransferId) : Op → Bool
  | .request caller t a to' => decide ((⟨a, caller, to', t⟩ : TransferId) ≠ tid)
  | _ => true

/-- C5 counterexample: after `3` accepts the transfer
`T = ⟨⟨"h1",2,5⟩, 2, 3, 5⟩` (completed = true), the owner `2` — whom the
Registry still records as owner, since `acceptTransfer` never updates
it — calls `requestTransfer` again with the same asset, recipient and
block timestamp.  The call succeeds, silently overwrites the stored
request (there is no existence check) and resets `completed` to false:
the `completed` flag does NOT stay true forever. -/
theorem C5_counterexample :
    (lookupD (runOps ⟨50, 60⟩ (initSys 1)
        [.gGrant 1 50 DATA_CONTROLLER_ROLE,
         .register 2 5 "h1" "Copyright" "m1",
         .request 2 5 ⟨"h1", 2, 5⟩ 3,
         .accept 3 ⟨⟨"h1", 2, 5⟩, 2, 3, 5⟩]).ownership.transferRequests
      ⟨⟨"h1", 2, 5⟩, 2, 3, 5⟩ defaultRequest).completed = true ∧
    isOkB (execOp ⟨50, 60⟩ (.request 2 5 ⟨"h1", 2, 5⟩ 3)
      (runOps ⟨50, 60⟩ (initSys 1)
        [.gGrant 1 50 DATA_CONTROLLER_ROLE,
         .register 2 5 "h1" "Copyright" "m1",
         .request 2 5 ⟨"h1", 2, 5⟩ 3,
         .accept 3 ⟨⟨"h1", 2, 5⟩, 2, 3, 5⟩])) = true ∧
    (lookupD (runOps ⟨50, 60⟩ (initSys 1)
        [.gGrant 1 50 DATA_CONTROLLER_ROLE,
         .register 2 5 "h1" "Copyright" "m1",
         .request 2 5 ⟨"h1", 2, 5⟩ 3,
         .accept 3 ⟨⟨"h1", 2, 5⟩, 2, 3, 5⟩,
         .request 2 5 ⟨"h1", 2, 5⟩ 3]).ownership.transferRequests
      ⟨⟨"h1", 2, 5⟩, 2, 3, 5⟩ defaultRequest).completed = false := by
  decide

/-- One transaction preserves mutual exclusion of a request's
`completed` / `canceled` flags. -/
theorem transfer_flags_not_both_step (cfg : Config) (o : Op) (s : Sys)
    (tid : TransferId)
    (h : ¬((lookupD s.ownership.transferRequests tid
        defaultRequest).completed = true ∧
      (lookupD s.ownership.transferRequests tid
        defaultRequest).canceled = true)) :
    ¬((lookupD (applyOp cfg o s).ownership.transferRequests tid
        defaultRequest).completed = true ∧
      (lookupD (applyOp cfg o s).ownership.transferRequests tid
        defaultRequest).canceled = true) := by
  cases hx : execOp cfg o s with
  | error e => rw [applyOp_of_error _ _ _ _ hx]; exact h
  | ok s' =>
      rw [applyOp_of_ok _ _ _ _ hx]
      by_cases ht : touchesTransfers o = true
      case neg =>
        rw [transferRequests_unchanged cfg o s s' (by simpa using ht) hx]
        exact h
      case pos =>
        cases o
        case request caller t a to' =>
            simp only [execOp, requestTransfer, getIPAsset, Except.map] at hx
            repeat' split at hx
            all_goals first
              | exact Except.noConfusion hx
              | (injection hx with hx'; subst hx';
                 rename_i v heq; repeat' split at heq
                 all_goals first
                  | exact Except.noConfusion heq
                  | (injection heq with heq'; subst heq';
                     by_cases hid :
                        (⟨a, caller, to', t⟩ : TransferId) = tid
                     · subst hid
                       rw [lookupD_insertA_self]
                       simp
                     · rw [lookupD_insertA_ne _ _ _ _ _
                         (fun hh => hid hh.symm)]
                       exact h))
        case accept caller tid' =>
            simp only [execOp, acceptTransfer] at hx
            repeat' split at hx
            all_goals first
              | exact Except.noConfusion hx
              | (injection hx with hx'; subst hx';
                 by_cases hid : tid' = tid
                 · subst hid
                   rw [lookupD_insertA_self]
                   simp_all
                 · rw [lookupD_insertA_ne _ _ _ _ _ (fun hh => hid hh.symm)]
                   exact h)
        case cancel caller tid' =>
            simp only [execOp, cancelTransfer] at hx
            repeat' split at hx
            all_goals first
              | exact Except.noConfusion hx
              | (injection hx with hx'; subst hx';
                 by_cases hid : tid' = tid
                 · subst hid
                   rw [lookupD_insertA_self]
                   simp_all
                 · rw [lookupD_insertA_ne _ _ _ _ _ (fun hh => hid hh.symm)]
                   exact h)
        all_goals simp [touchesTransfers] at ht

/-- Once a request is finalized, a transaction that is not an
identical-id `requestTransfer` overwrite leaves the stored request
bitwise unchanged. -/
theorem finalized_request_frozen_step (cfg : Config) (o : Op) (s : Sys)
    (tid : TransferId)
    (hfin : ((lookupD s.ownership.transferRequests tid
        defaultRequest).completed
      || (lookupD s.ownership.transferRequests tid
        defaultRequest).canceled) = true)
    (hno : noRewriteOf tid o = true) :
    lookupD (applyOp cfg o s).ownership.transferRequests tid defaultRequest
      = lookupD s.ownership.transferRequests tid defaultRequest := by
  cases hx : execOp cfg o s with
  | error e => rw [applyOp_of_error _ _ _ _ hx]
  | ok s' =>
      rw [applyOp_of_ok _ _ _ _ hx]
      by_cases ht : touchesTransfers o = true
      case neg =>
        rw [transferRequests_unchanged cfg o s s' (by simpa using ht) hx]
      case pos =>
        cases o
        case request caller t a to' =>
            have hkey : (⟨a, caller, to', t⟩ : TransferId) ≠ tid := by
              simpa [noRewriteOf] using hno
            simp only [execOp, requestTransfer, getIPAsset, Except.map] at hx
            repeat' split at hx
            all_goals first
              | exact Except.noConfusion hx
              | (injection hx with hx'; subst hx';
                 rename_i v heq; repeat' split at heq
                 all_goals first
                  | exact Except.noConfusion heq
                  | (injection heq with heq'; subst heq';
                     rw [lookupD_insertA_ne _ _ _ _ _
                       (fun hh => hkey hh.symm)]))
        case accept caller tid' =>
            simp only [execOp, acceptTransfer] at hx
            repeat' split at hx
            all_goals first
              | exact Except.noConfusion hx
              | (injection hx with hx'; subst hx';
                 by_cases hid : tid' = tid
                 · subst hid; simp_all
                 · rw [lookupD_insertA_ne _ _ _ _ _
                     (fun hh => hid hh.symm)])
        case cancel caller tid' =>
            simp only [execOp, cancelTransfer] at hx
            repeat' split at hx
            all_goals first
              | exact Except.noConfusion hx
              | (injection hx with hx'; subst hx';
                 by_cases hid : tid' = tid
                 · subst hid; simp_all
                 · rw [lookupD_insertA_ne _ _ _ _ _
                     (fun hh => hid hh.symm)])
        all_goals simp [touchesTransfers] at ht

/-- C5 (amended): (i) in every state reachable from deployment,
`completed` and `canceled` are never both true; (ii) on a finalized
stored request, `acceptTransfer` by the recipient and `cancelTransfer`
by the sender are both rejected with `AlreadyFinalized` and change no
state; (iii) a finalized request stays finalized — indeed bitwise
frozen — across every transaction sequence containing no
`requestTransfer` whose derived id `⟨assetId, from, to, timestamp⟩`
equals the request's id.  (Such an identical-tuple re-request at the
same ledger timestamp silently overwrites the request and resets both
flags, as the counterexample shows; this is the only escape.) -/
theorem transfer_finality (cfg : Config) (tid : TransferId) :
    (∀ (d : Address) (ops : List Op),
      ¬((lookupD (runOps cfg (initSys d) ops).ownership.transferRequests tid
          defaultRequest).completed = true ∧
        (lookupD (runOps cfg (initSys d) ops).ownership.transferRequests tid
          defaultRequest).canceled = true)) ∧
    (∀ s : Sys,
      (lookupD s.ownership.transferRequests tid
        defaultRequest).requestDate ≠ 0 →
      ((lookupD s.ownership.transferRequests tid defaultRequest).completed
        || (lookupD s.ownership.transferRequests tid
          defaultRequest).canceled) = true →
      execOp cfg (.accept (lookupD s.ownership.transferRequests tid
          defaultRequest).to' tid) s = .error .AlreadyFinalized ∧
      applyOp cfg (.accept (lookupD s.ownership.transferRequests tid
          defaultRequest).to' tid) s = s ∧
      execOp cfg (.cancel (lookupD s.ownership.transferRequests tid
          defaultRequest).from' tid) s = .error .AlreadyFinalized ∧
      applyOp cfg (.cancel (lookupD s.ownership.transferRequests tid
          defaultRequest).from' tid) s = s) ∧
    (∀ (s : Sys) (ops : List Op),
      ((lookupD s.ownership.transferRequests tid defaultRequest).completed
        || (lookupD s.ownership.transferRequests tid
          defaultRequest).canceled) = true →
      (∀ o ∈ ops, noRewriteOf tid o = true) →
      lookupD (runOps cfg s ops).ownership.transferRequests tid
        defaultRequest
        = lookupD s.ownership.transferRequests tid defaultRequest) := by
  refine ⟨?_, ?_, ?_⟩
  · intro d ops
    refine runOps_preserves cfg
      (fun s₀ => ¬((lookupD s₀.ownership.transferRequests tid
          defaultRequest).completed = true ∧
        (lookupD s₀.ownership.transferRequests tid
          defaultRequest).canceled = true)) ops
      (fun o _ s₀ hs₀ => transfer_flags_not_both_step cfg o s₀ tid hs₀)
      (initSys d) ?_
    simp [initSys, lookupD, defaultRequest]
  · intro s hreq hfin
    have hOr : (lookupD s.ownership.transferRequests tid
        defaultRequest).completed = true ∨
        (lookupD s.ownership.transferRequests tid
          defaultRequest).canceled = true := by
      rcases Bool.or_eq_true_iff.mp hfin with hb | hb
      · exact Or.inl hb
      · exact Or.inr hb
    have hacc : execOp cfg (.accept (lookupD s.ownership.transferRequests tid
        defaultRequest).to' tid) s = .error .AlreadyFinalized := by
      simp [execOp, acceptTransfer, hreq, hOr]
    have hcan : execOp cfg (.cancel (lookupD s.ownership.transferRequests tid
        defaultRequest).from' tid) s = .error .AlreadyFinalized := by
      simp [execOp, cancelTransfer, hreq, hOr]
    exact ⟨hacc, applyOp_of_error _ _ _ _ hacc, hcan,
      applyOp_of_error _ _ _ _ hcan⟩
  · intro s ops hfin hno
    induction ops generalizing s with
    | nil => rfl
    | cons o rest ih =>
        simp only [runOps]
        have hstep := finalized_request_frozen_step cfg o s tid hfin
          (hno o (List.mem_cons_self _ _))
        rw [ih (applyOp cfg o s) (by rw [hstep]; exact hfin)
          (fun o' ho' => hno o' (List.mem_cons_of_mem _ ho')), hstep]

/-- C5 witness: the invariant, the `AlreadyFinalized` rejections and
the frozen-request property at the concrete accepted transfer of the
counterexample scenario. -/
theorem transfer_finality_witness :
    execOp ⟨50, 60⟩ (.accept 3 ⟨⟨"h1", 2, 5⟩, 2, 3, 5⟩)
      (runOps ⟨50, 60⟩ (initSys 1)
        [.gGrant 1 50 DATA_CONTROLLER_ROLE,
         .register 2 5 "h1" "Copyright" "m1",
         .request 2 5 ⟨"h1", 2, 5⟩ 3,
         .accept 3 ⟨⟨"h1", 2, 5⟩, 2, 3, 5⟩]) = .error .AlreadyFinalized ∧
    execOp ⟨50, 60⟩ (.cancel 2 ⟨⟨"h1", 2, 5⟩, 2, 3, 5⟩)
      (runOps ⟨50, 60⟩ (initSys 1)
        [.gGrant 1 50 DATA_CONTROLLER_ROLE,
         .register 2 5 "h1" "Copyright" "m1",
         .request 2 5 ⟨"h1", 2, 5⟩ 3,
         .accept 3 ⟨⟨"h1", 2, 5⟩, 2, 3, 5⟩]) = .error .AlreadyFinalized ∧
    lookupD (runOps ⟨50, 60⟩
        (runOps ⟨50, 60⟩ (initSys 1)
          [.gGrant 1 50 DATA_CONTROLLER_ROLE,
           .register 2 5 "h1" "Copyright" "m1",
           .request 2 5 ⟨"h1", 2, 5⟩ 3,
           .accept 3 ⟨⟨"h1", 2, 5⟩, 2, 3, 5⟩])
        [.cancel 2 ⟨⟨"h1", 2, 5⟩, 2, 3, 5⟩,
         .deactivate 2 ⟨"h1", 2, 5⟩]).ownership.transferRequests
      ⟨⟨"h1", 2, 5⟩, 2, 3, 5⟩ defaultRequest
      = lookupD (runOps ⟨50, 60⟩ (initSys 1)
          [.gGrant 1 50 DATA_CONTROLLER_ROLE,
           .register 2 5 "h1" "Copyright" "m1",
           .request 2 5 ⟨"h1", 2, 5⟩ 3,
           .accept 3 ⟨⟨"h1", 2, 5⟩, 2, 3, 5⟩]).ownership.transferRequests
        ⟨⟨"h1", 2, 5⟩, 2, 3, 5⟩ defaultRequest := by
  have hmain := transfer_finality ⟨50, 60⟩ ⟨⟨"h1", 2, 5⟩, 2, 3, 5⟩
  refine ⟨?_, ?_, ?_⟩
  · exact (hmain.2.1 (runOps ⟨50, 60⟩ (initSys 1)
      [.gGrant 1 50 DATA_CONTROLLER_ROLE,
       .register 2 5 "h1" "Copyright" "m1",
       .request 2 5 ⟨"h1", 2, 5⟩ 3,
       .accept 3 ⟨⟨"h1", 2, 5⟩, 2, 3, 5⟩]) (by decide) (by decide)).1
  · exact (hmain.2.1 (runOps ⟨50, 60⟩ (initSys 1)
      [.gGrant 1 50 DATA_CONTROLLER_ROLE,
       .register 2 5 "h1" "Copyright" "m1",
       .request 2 5 ⟨"h1", 2, 5⟩ 3,
       .accept 3 ⟨⟨"h1", 2, 5⟩, 2, 3, 5⟩]) (by decide) (by decide)).2.2.1
  · exact hmain.2.2 (runOps ⟨50, 60⟩ (initSys 1)
      [.gGrant 1 50 DATA_CONTROLLER_ROLE,
       .register 2 5 "h1" "Copyright" "m1",
       .request 2 5 ⟨"h1", 2, 5⟩ 3,
       .accept 3 ⟨⟨"h1", 2, 5⟩, 2, 3, 5⟩])
      [.cancel 2 ⟨⟨"h1", 2, 5⟩, 2, 3, 5⟩, .deactivate 2 ⟨"h1", 2, 5⟩]
      (by decide) (by decide)

/-! ### Claim C6 -/

/-- `o` cannot overwrite the stored license `lid`: it is not a
`createLicense` whose derived id `keccak(assetId, licensor, licensee,
time)` equals `lid`. -/
def noRecreateOf (lid : LicenseId) : Op → Bool
  | .createLic caller t a lc _ _ _ _ _ =>
      decide ((⟨a, caller, lc, t⟩ : LicenseId) ≠ lid)
  | _ => true

/-- C6 counterexample: license `L = ⟨⟨"h1",2,5⟩, 2, 3, 5⟩` is created,
terminated (`isValid` goes false), and then `createLicense` is called
again by the same licensor for the same asset and licensee at the same
ledger timestamp.  The call succeeds — `createLicense` has no existence
check — overwriting the record with `isActive = true`, and `isValid(L)`
is true again: termination is not permanent. -/
theorem C6_counterexample :
    isLicenseValid (runOps ⟨50, 60⟩ (initSys 1)
      [.gGrant 1 60 DATA_CONTROLLER_ROLE,
       .register 2 5 "h1" "Copyright" "m1",
       .createLic 2 5 ⟨"h1", 2, 5⟩ 3 6 10 .NonExclusive "terms" 100,
       .terminate 2 ⟨⟨"h1", 2, 5⟩, 2, 3, 5⟩]) 6 ⟨⟨"h1", 2, 5⟩, 2, 3, 5⟩
      = false ∧
    isOkB (execOp ⟨50, 60⟩
      (.createLic 2 5 ⟨"h1", 2, 5⟩ 3 6 10 .NonExclusive "terms" 100)
      (runOps ⟨50, 60⟩ (initSys 1)
        [.gGrant 1 60 DATA_CONTROLLER_ROLE,
         .register 2 5 "h1" "Copyright" "m1",
         .createLic 2 5 ⟨"h1", 2, 5⟩ 3 6 10 .NonExclusive "terms" 100,
         .terminate 2 ⟨⟨"h1", 2, 5⟩, 2, 3, 5⟩])) = true ∧
    isLicenseValid (runOps ⟨50, 60⟩ (initSys 1)
      [.gGrant 1 60 DATA_CONTROLLER_ROLE,
       .register 2 5 "h1" "Copyright" "m1",
       .createLic 2 5 ⟨"h1", 2, 5⟩ 3 6 10 .NonExclusive "terms" 100,
       .terminate 2 ⟨⟨"h1", 2, 5⟩, 2, 3, 5⟩,
       .createLic 2 5 ⟨"h1", 2, 5⟩ 3 6 10 .NonExclusive "terms" 100])
      6 ⟨⟨"h1", 2, 5⟩, 2, 3, 5⟩ = true := by
  decide

/-- A terminated (inactive) license record stays inactive under every
transaction that is not an identical-id `createLicense` overwrite. -/
theorem license_inactive_step (cfg : Config) (o : Op) (s : Sys)
    (lid : LicenseId)
    (h : (lookupD s.licensing.licenses lid defaultLicense).isActive = false)
    (hno : noRecreateOf lid o = true) :
    (lookupD (applyOp cfg o s).licensing.licenses lid
      defaultLicense).isActive = false := by
  cases hx : execOp cfg o s with
  | error e => rw [applyOp_of_error _ _ _ _ hx]; exact h
  | ok s' =>
      rw [applyOp_of_ok _ _ _ _ hx]
      by_cases ht : touchesLicenses o = true
      case neg =>
        rw [licenses_unchanged cfg o s s' (by simpa using ht) hx]
        exact h
      case pos =>
        cases o
        case createLic caller t a lc sd ed ty tm ra =>
            have hkey : (⟨a, caller, lc, t⟩ : LicenseId) ≠ lid := by
              simpa [noRecreateOf] using hno
            simp only [execOp, createLicense, getIPAsset, Except.map] at hx
            repeat' split at hx
            all_goals first
              | exact Except.noConfusion hx
              | (injection hx with hx'; subst hx';
                 rename_i v heq; repeat' split at heq
                 all_goals first
                  | exact Except.noConfusion heq
                  | ((injection heq with heq'; subst heq');
                     (rename_i v2 heq2; repeat' split at heq2) <;>
                      first
                        | exact Except.noConfusion heq2
                        | (injection heq2 with heq2'; subst heq2';
                           rw [lookupD_insertA_ne _ _ _ _ _
                             (fun hh => hkey hh.symm)]
                           exact h)
                        | (rw [lookupD_insertA_ne _ _ _ _ _
                             (fun hh => hkey hh.symm)]
                           exact h))
                  | (rw [lookupD_insertA_ne _ _ _ _ _
                       (fun hh => hkey hh.symm)]
                     exact h))
        case terminate caller lid' =>
            simp only [execOp, terminateLicense] at hx
            repeat' split at hx
            all_goals first
              | exact Except.noConfusion hx
              | (injection hx with hx'; subst hx';
                 by_cases hid : lid' = lid
                 · subst hid
                   rw [lookupD_insertA_self]
                 · rw [lookupD_insertA_ne _ _ _ _ _ (fun hh => hid hh.symm)]
                   exact h)
        case pay caller lid' amt =>
            simp only [execOp, payRoyalty] at hx
            repeat' split at hx
            all_goals first
              | exact Except.noConfusion hx
              | (injection hx with hx'; subst hx';
                 by_cases hid : lid' = lid
                 · subst hid; simp_all [lookupD_insertA_self]
                 · rw [lookupD_insertA_ne _ _ _ _ _ (fun hh => hid hh.symm)]
                   exact h)
        all_goals simp [touchesLicenses] at ht

/-- C6 (amended): `isValid` is total and returns false for ids whose
slot is unwritten; for a stored license with nonzero `startDate` (every
license created at a positive ledger time) it is true exactly when the
license is active, `now ≥ startDate`, and `endDate` is absent (0) or
`now ≤ endDate` — inclusive at both bounds; and after a successful
`terminateLicense` it is false and stays false through every
transaction sequence containing no `createLicense` whose derived id
`⟨assetId, licensor, licensee, timestamp⟩` equals the license's id.
(Such an identical-tuple re-creation at the original ledger timestamp
overwrites the record with `active = true` and can make `isValid` true
again, as the counterexample shows; this is the only escape.) -/
theorem isValid_semantics_and_termination (cfg : Config)
    (lid : LicenseId) :
    (∀ (s : Sys) (now : Nat),
      (lookupD s.licensing.licenses lid defaultLicense).startDate = 0 →
      isLicenseValid s now lid = false) ∧
    (∀ (s : Sys) (now : Nat),
      (lookupD s.licensing.licenses lid defaultLicense).startDate ≠ 0 →
      (isLicenseValid s now lid = true ↔
        ((lookupD s.licensing.licenses lid defaultLicense).isActive = true ∧
         (lookupD s.licensing.licenses lid defaultLicense).startDate ≤ now ∧
         ((lookupD s.licensing.licenses lid defaultLicense).endDate = 0 ∨
          now ≤ (lookupD s.licensing.licenses lid
            defaultLicense).endDate)))) ∧
    (∀ (s s' : Sys) (caller : Address),
      execOp cfg (.terminate caller lid) s = .ok s' →
      ∀ (ops : List Op), (∀ o ∈ ops, noRecreateOf lid o = true) →
      ∀ now : Nat,
        isLicenseValid (runOps cfg s' ops) now lid = false) := by
  refine ⟨?_, ?_, ?_⟩
  · intro s now hz
    simp [isLicenseValid, hz]
  · intro s now hnz
    by_cases hact : (lookupD s.licensing.licenses lid
        defaultLicense).isActive = true
    · by_cases h1 : now < (lookupD s.licensing.licenses lid
          defaultLicense).startDate
      · have hv : isLicenseValid s now lid = false := by
          simp [isLicenseValid, hnz, hact, h1]
        rw [hv]
        simp only [Bool.false_eq_true, false_iff]
        rintro ⟨-, h2, -⟩
        omega
      · by_cases h2 : (lookupD s.licensing.licenses lid
              defaultLicense).endDate > 0 ∧
            (lookupD s.licensing.licenses lid defaultLicense).endDate < now
        · have hv : isLicenseValid s now lid = false := by
            simp [isLicenseValid, hnz, hact, h1, h2.1, h2.2]
          rw [hv]
          simp only [Bool.false_eq_true, false_iff]
          rintro ⟨-, -, h3 | h3⟩ <;> omega
        · have hv : isLicenseValid s now lid = true := by
            simp only [isLicenseValid]
            rw [if_neg (by simp [hnz, hact]), if_neg h1, if_neg (by
              simp only [Bool.and_eq_true, decide_eq_true_eq]
              exact fun hc => h2 ⟨hc.1, hc.2⟩)]
          rw [hv]
          simp only [true_iff]
          refine ⟨hact, Nat.le_of_not_lt h1, ?_⟩
          by_cases he : (lookupD s.licensing.licenses lid
              defaultLicense).endDate = 0
          · exact Or.inl he
          · refine Or.inr ?_
            have hgt : 0 < (lookupD s.licensing.licenses lid
                defaultLicense).endDate := Nat.pos_of_ne_zero he
            have hnl : ¬((lookupD s.licensing.licenses lid
                defaultLicense).endDate < now) :=
              fun hlt => h2 ⟨hgt, hlt⟩
            omega
    · have hact' : (lookupD s.licensing.licenses lid
          defaultLicense).isActive = false := by
        rw [Bool.not_eq_true] at hact
        exact hact
      have hv : isLicenseValid s now lid = false := by
        simp [isLicenseValid, hact']
      rw [hv]
      simp [hact']
  · intro s s' caller hx ops hno now
    have hterm : (lookupD s'.licensing.licenses lid
        defaultLicense).isActive = false := by
      simp only [execOp, terminateLicense] at hx
      repeat' split at hx
      all_goals first
        | exact Except.noConfusion hx
        | (injection hx with hx'; subst hx'; rw [lookupD_insertA_self])
    have hrun : (lookupD (runOps cfg s' ops).licensing.licenses lid
        defaultLicense).isActive = false :=
      runOps_preserves cfg
        (fun s₀ => (lookupD s₀.licensing.licenses lid
          defaultLicense).isActive = false) ops
        (fun o ho s₀ hs₀ => license_inactive_step cfg o s₀ lid hs₀
          (hno o ho)) s' hterm
    simp [isLicenseValid, hrun]

/-- The license id of the C6/C7 scenarios. -/
def c6L : LicenseId := ⟨⟨"h1", 2, 5⟩, 2, 3, 5⟩

/-- Deployment by `1`; Licensing contract (60) granted the controller
role; asset `⟨"h1",2,5⟩` registered by `2`; license `c6L` to `3`,
window `[6, 10]`. -/
def c6State : Sys := runOps ⟨50, 60⟩ (initSys 1)
  [.gGrant 1 60 DATA_CONTROLLER_ROLE,
   .register 2 5 "h1" "Copyright" "m1",
   .createLic 2 5 ⟨"h1", 2, 5⟩ 3 6 10 .NonExclusive "terms" 100]

/-- C6 witness: the unknown-id clause on the fresh deployment, the
window characterization on the live license, and permanence of
termination across a further trace. -/
theorem isValid_semantics_and_termination_witness :
    isLicenseValid (initSys 1) 7 c6L = false ∧
    (isLicenseValid c6State 6 c6L = true ↔
      ((lookupD c6State.licensing.licenses c6L defaultLicense).isActive
          = true ∧
       (lookupD c6State.licensing.licenses c6L defaultLicense).startDate
          ≤ 6 ∧
       ((lookupD c6State.licensing.licenses c6L defaultLicense).endDate
          = 0 ∨
        6 ≤ (lookupD c6State.licensing.licenses c6L
          defaultLicense).endDate))) ∧
    isLicenseValid (runOps ⟨50, 60⟩
      (applyOp ⟨50, 60⟩ (.terminate 2 c6L) c6State)
      [.pay 4 c6L 40, .deactivate 2 ⟨"h1", 2, 5⟩]) 7 c6L = false :=
  ⟨(isValid_semantics_and_termination ⟨50, 60⟩ c6L).1 (initSys 1) 7
      (by decide),
   (isValid_semantics_and_termination ⟨50, 60⟩ c6L).2.1 c6State 6
      (by decide),
   (isValid_semantics_and_termination ⟨50, 60⟩ c6L).2.2 c6State _ 2 rfl
      [.pay 4 c6L 40, .deactivate 2 ⟨"h1", 2, 5⟩] (by decide) 7⟩

/-! ### Claim C7 -/

/-- Contribution of one transaction to a license's royalty total: the
amount of a committing `payRoyalty` for that license, 0 otherwise. -/
def payContribution (cfg : Config) (lid : LicenseId) (s : Sys) : Op → Nat
  | .pay c l amt =>
      if l = lid ∧ isOkB (execOp cfg (.pay c l amt) s) = true then amt
      else 0
  | _ => 0

/-- Sum of the amounts of the committing `payRoyalty` transactions for
`lid` along a trace. -/
def acceptedPayments (cfg : Config) (lid : LicenseId) :
    Sys → List Op → Nat
  | _, [] => 0
  | s, o :: rest =>
      payContribution cfg lid s o
        + acceptedPayments cfg lid (applyOp cfg o s) rest

/-- C7 counterexample: license `c6L` has received an accepted royalty
payment of 40, then the licensor re-runs `createLicense` with the same
(asset, licensor, licensee) tuple at the same ledger timestamp.  The
call succeeds and resets the stored `royaltyPaid` from 40 to 0 — an
operation that DECREASES `royaltyPaid`, and afterwards the cumulative
value no longer equals the sum of accepted payments (40). -/
theorem C7_counterexample :
    (lookupD (runOps ⟨50, 60⟩ (initSys 1)
        [.gGrant 1 60 DATA_CONTROLLER_ROLE,
         .register 2 5 "h1" "Copyright" "m1",
         .createLic 2 5 ⟨"h1", 2, 5⟩ 3 6 10 .NonExclusive "terms" 100,
         .pay 4 c6L 40]).licensing.licenses c6L
      defaultLicense).royaltyPaid = 40 ∧
    isOkB (execOp ⟨50, 60⟩
      (.createLic 2 5 ⟨"h1", 2, 5⟩ 3 6 10 .NonExclusive "terms" 100)
      (runOps ⟨50, 60⟩ (initSys 1)
        [.gGrant 1 60 DATA_CONTROLLER_ROLE,
         .register 2 5 "h1" "Copyright" "m1",
         .createLic 2 5 ⟨"h1", 2, 5⟩ 3 6 10 .NonExclusive "terms" 100,
         .pay 4 c6L 40])) = true ∧
    (lookupD (runOps ⟨50, 60⟩ (initSys 1)
        [.gGrant 1 60 DATA_CONTROLLER_ROLE,
         .register 2 5 "h1" "Copyright" "m1",
         .createLic 2 5 ⟨"h1", 2, 5⟩ 3 6 10 .NonExclusive "terms" 100,
         .pay 4 c6L 40,
         .createLic 2 5 ⟨"h1", 2, 5⟩ 3 6 10 .NonExclusive "terms"
           100]).licensing.licenses c6L defaultLicense).royaltyPaid = 0 ∧
    (0 : Nat) < 40 := by
  decide

/-- Effect of one transaction on a license's stored `royaltyPaid`,
for transactions that are not an identical-id `createLicense`
overwrite: a committing `payRoyalty` for that license adds exactly its
amount; everything else leaves the value unchanged. -/
theorem royaltyPaid_step (cfg : Config) (o : Op) (s : Sys)
    (lid : LicenseId) (hno : noRecreateOf lid o = true) :
    (lookupD (applyOp cfg o s).licensing.licenses lid
      defaultLicense).royaltyPaid
      = (lookupD s.licensing.licenses lid defaultLicense).royaltyPaid
        + payContribution cfg lid s o := by
  cases hx : execOp cfg o s with
  | error e =>
      rw [applyOp_of_error _ _ _ _ hx]
      cases o <;> simp [payContribution, hx, isOkB]
  | ok s' =>
      rw [applyOp_of_ok _ _ _ _ hx]
      by_cases ht : touchesLicenses o = true
      case neg =>
        rw [licenses_unchanged cfg o s s' (by simpa using ht) hx]
        cases o <;> first
          | exact absurd rfl ht
          | simp [payContribution]
      case pos =>
        cases o
        case createLic caller t a lc sd ed ty tm ra =>
            have hkey : (⟨a, caller, lc, t⟩ : LicenseId) ≠ lid := by
              simpa [noRecreateOf] using hno
            simp only [payContribution]
            rw [Nat.add_zero]
            simp only [execOp, createLicense, getIPAsset, Except.map] at hx
            repeat' split at hx
            all_goals first
              | exact Except.noConfusion hx
              | (injection hx with hx'; subst hx';
                 rename_i v heq; repeat' split at heq
                 all_goals first
                  | exact Except.noConfusion heq
                  | ((injection heq with heq'; subst heq');
                     (rename_i v2 heq2; repeat' split at heq2) <;>
                      first
                        | exact Except.noConfusion heq2
                        | (injection heq2 with heq2'; subst heq2';
                           rw [lookupD_insertA_ne _ _ _ _ _
                             (fun hh => hkey hh.symm)])
                        | (rw [lookupD_insertA_ne _ _ _ _ _
                             (fun hh => hkey hh.symm)]))
                  | (rw [lookupD_insertA_ne _ _ _ _ _
                       (fun hh => hkey hh.symm)]))
        case terminate caller lid' =>
            simp only [payContribution]
            rw [Nat.add_zero]
            simp only [execOp, terminateLicense] at hx
            repeat' split at hx
            all_goals first
              | exact Except.noConfusion hx
              | (injection hx with hx'; subst hx';
                 by_cases hid : lid' = lid
                 · subst hid
                   rw [lookupD_insertA_self]
                 · rw [lookupD_insertA_ne _ _ _ _ _
                     (fun hh => hid hh.symm)])
        case pay caller l amt =>
            have hx0 := hx
            by_cases hl : l = lid
            · subst hl
              simp only [execOp, payRoyalty] at hx
              repeat' split at hx
              all_goals first
                | exact Except.noConfusion hx
                | (injection hx with hx'; subst hx';
                   rw [lookupD_insertA_self]
                   simp [payContribution, hx0, isOkB])
            · simp only [execOp, payRoyalty] at hx
              repeat' split at hx
              all_goals first
                | exact Except.noConfusion hx
                | (injection hx with hx'; subst hx';
                   rw [lookupD_insertA_ne _ _ _ _ _ (fun hh => hl hh.symm)]
                   simp [payContribution, hl])
        all_goals simp [touchesLicenses] at ht

/-- C7 (amended): every committing `payRoyalty(L, amount)` has
`amount > 0` and increases `L.royaltyPaid` by exactly `amount`; and
across every transaction sequence containing no `createLicense` whose
derived id equals `L` (such an identical-tuple overwrite resets
`royaltyPaid` to 0, as the counterexample shows), the stored
`royaltyPaid` equals its starting value plus the sum of all accepted
payment amounts for `L` — in particular it never decreases. -/
theorem payRoyalty_exact_monotone_sum (cfg : Config) (lid : LicenseId) :
    (∀ (s s' : Sys) (caller : Address) (amount : Nat),
      execOp cfg (.pay caller lid amount) s = .ok s' →
      0 < amount ∧
      (lookupD s'.licensing.licenses lid defaultLicense).royaltyPaid
        = (lookupD s.licensing.licenses lid defaultLicense).royaltyPaid
          + amount) ∧
    (∀ (s : Sys) (ops : List Op),
      (∀ o ∈ ops, noRecreateOf lid o = true) →
      (lookupD (runOps cfg s ops).licensing.licenses lid
        defaultLicense).royaltyPaid
        = (lookupD s.licensing.licenses lid defaultLicense).royaltyPaid
          + acceptedPayments cfg lid s ops ∧
      (lookupD s.licensing.licenses lid defaultLicense).royaltyPaid
        ≤ (lookupD (runOps cfg s ops).licensing.licenses lid
          defaultLicense).royaltyPaid) := by
  constructor
  · intro s s' caller amount hx
    simp only [execOp, payRoyalty] at hx
    repeat' split at hx
    all_goals first
      | exact Except.noConfusion hx
      | (injection hx with hx'; subst hx';
         refine ⟨by assumption, ?_⟩
         rw [lookupD_insertA_self])
  · intro s ops hno
    have hsum : (lookupD (runOps cfg s ops).licensing.licenses lid
        defaultLicense).royaltyPaid
        = (lookupD s.licensing.licenses lid defaultLicense).royaltyPaid
          + acceptedPayments cfg lid s ops := by
      induction ops generalizing s with
      | nil => simp [runOps, acceptedPayments]
      | cons o rest ih =>
          simp only [runOps, acceptedPayments]
          rw [ih (applyOp cfg o s)
            (fun o' ho' => hno o' (List.mem_cons_of_mem _ ho'))]
          rw [royaltyPaid_step cfg o s lid (hno o (List.mem_cons_self _ _))]
          omega
    exact ⟨hsum, by omega⟩

/-- C7 witness: on the live license `c6L`, an accepted payment of 40
increments `royaltyPaid` by exactly 40, and the trace
`[pay 40, pay 25, terminate]` accumulates `0 + 40 + 25 = 65` with no
decrease. -/
theorem payRoyalty_exact_monotone_sum_witness :
    (0 < 40 ∧
      (lookupD (applyOp ⟨50, 60⟩ (.pay 4 c6L 40)
          c6State).licensing.licenses c6L defaultLicense).royaltyPaid
        = (lookupD c6State.licensing.licenses c6L
            defaultLicense).royaltyPaid + 40) ∧
    ((lookupD (runOps ⟨50, 60⟩ c6State
        [.pay 4 c6L 40, .pay 4 c6L 25,
         .terminate 2 c6L]).licensing.licenses c6L
        defaultLicense).royaltyPaid
      = (lookupD c6State.licensing.licenses c6L
          defaultLicense).royaltyPaid
        + acceptedPayments ⟨50, 60⟩ c6L c6State
            [.pay 4 c6L 40, .pay 4 c6L 25, .terminate 2 c6L] ∧
     (lookupD c6State.licensing.licenses c6L
        defaultLicense).royaltyPaid
      ≤ (lookupD (runOps ⟨50, 60⟩ c6State
          [.pay 4 c6L 40, .pay 4 c6L 25,
           .terminate 2 c6L]).licensing.licenses c6L
          defaultLicense).royaltyPaid) :=
  ⟨(payRoyalty_exact_monotone_sum ⟨50, 60⟩ c6L).1 c6State _ 4 40 rfl,
   (payRoyalty_exact_monotone_sum ⟨50, 60⟩ c6L).2 c6State
     [.pay 4 c6L 40, .pay 4 c6L 25, .terminate 2 c6L] (by decide)⟩

/-! ### Claim C3 -/

/-- Transactions that cannot write a null controller: `register` /
`acceptTransfer` write the (non-null) caller, `registerDataSubject`
writes its subject, `updateDataController` writes its argument; all
other operations never touch the controller map. -/
def keepsControllerNonNull : Op → Bool
  | .register caller _ _ _ _ => decide (caller ≠ 0)
  | .accept caller _ => decide (caller ≠ 0)
  | .gRegisterSubject subj _ => decide (subj ≠ 0)
  | .gUpdateController _ _ nc => decide (nc ≠ 0)
  | _ => true

/-- C3 counterexample: asset `⟨"h1", 2, 5⟩` is registered by `2`
(controller = 2, non-null).  Then `2` — the current controller — calls
`updateDataController(assetId, address(0))`; the call succeeds (the
code never validates the new controller) and the asset's controller is
the null address afterwards: a sequence of operations CAN leave a
registered asset's controller unset. -/
theorem C3_counterexample :
    getAssetController (runOps ⟨50, 60⟩ (initSys 1)
      [.register 2 5 "h1" "Copyright" "m1"]).gdpr ⟨"h1", 2, 5⟩ = 2 ∧
    (2 : Address) ≠ 0 ∧
    isOkB (execOp ⟨50, 60⟩ (.gUpdateController 2 ⟨"h1", 2, 5⟩ 0)
      (runOps ⟨50, 60⟩ (initSys 1)
        [.register 2 5 "h1" "Copyright" "m1"])) = true ∧
    getAssetController (runOps ⟨50, 60⟩ (initSys 1)
      [.register 2 5 "h1" "Copyright" "m1",
       .gUpdateController 2 ⟨"h1", 2, 5⟩ 0]).gdpr ⟨"h1", 2, 5⟩ = 0 := by
  decide

/-- One transaction that cannot write a null controller preserves
non-nullness of an asset's controller. -/
theorem controller_nonnull_step (cfg : Config) (o : Op) (s : Sys)
    (a : AssetId) (h : getAssetController s.gdpr a ≠ 0)
    (hgood : keepsControllerNonNull o = true) :
    getAssetController (applyOp cfg o s).gdpr a ≠ 0 := by
  cases hx : execOp cfg o s with
  | error e => rw [applyOp_of_error _ _ _ _ hx]; exact h
  | ok s' =>
      rw [applyOp_of_ok _ _ _ _ hx]
      by_cases ht : touchesControllers o = true
      case neg =>
        simp only [getAssetController]
        rw [assetControllers_unchanged cfg o s s' (by simpa using ht) hx]
        exact h
      case pos =>
        cases o
        case register caller t h1 ty mh =>
            have hc : caller ≠ 0 := by
              simpa [keepsControllerNonNull] using hgood
            simp only [execOp, registerIPAsset, registerDataSubject,
              Except.map] at hx
            repeat' split at hx
            all_goals first
              | exact Except.noConfusion hx
              | (injection hx with hx'; subst hx';
                 rename_i v heq; repeat' split at heq
                 all_goals first
                  | exact Except.noConfusion heq
                  | (injection heq with heq'; subst heq';
                     simp only [getAssetController]
                     by_cases hid : (⟨h1, caller, t⟩ : AssetId) = a
                     · subst hid
                       rw [lookupD_insertA_self]
                       exact hc
                     · rw [lookupD_insertA_ne _ _ _ _ _
                         (fun hh => hid hh.symm)]
                       exact h))
        case accept caller tid =>
            have hc : caller ≠ 0 := by
              simpa [keepsControllerNonNull] using hgood
            simp only [execOp, acceptTransfer, updateDataController] at hx
            repeat' split at hx
            all_goals first
              | exact Except.noConfusion hx
              | (injection hx with hx'; subst hx';
                 rename_i v heq; repeat' split at heq
                 all_goals first
                  | exact Except.noConfusion heq
                  | (injection heq with heq'; subst heq';
                     simp only [getAssetController]
                     by_cases hid : (lookupD s.ownership.transferRequests
                         tid defaultRequest).assetId = a
                     · rw [hid, lookupD_insertA_self]
                       exact hc
                     · rw [lookupD_insertA_ne _ _ _ _ _
                         (fun hh => hid hh.symm)]
                       exact h))
        case gRegisterSubject subj a' =>
            have hc : subj ≠ 0 := by
              simpa [keepsControllerNonNull] using hgood
            simp only [execOp, registerDataSubject] at hx
            injection hx with hx'
            subst hx'
            simp only [getAssetController]
            by_cases hid : a' = a
            · subst hid
              rw [lookupD_insertA_self]
              exact hc
            · rw [lookupD_insertA_ne _ _ _ _ _ (fun hh => hid hh.symm)]
              exact h
        case gUpdateController caller a' nc =>
            have hc : nc ≠ 0 := by
              simpa [keepsControllerNonNull] using hgood
            simp only [execOp, updateDataController, Except.map] at hx
            repeat' split at hx
            all_goals first
              | exact Except.noConfusion hx
              | (injection hx with hx'; subst hx';
                 (rename_i v heq; repeat' split at heq) <;>
                  first
                    | exact Except.noConfusion heq
                    | (injection heq with heq'; subst heq';
                       simp only [getAssetController]
                       by_cases hid : a' = a
                       · subst hid
                         rw [lookupD_insertA_self]
                         exact hc
                       · rw [lookupD_insertA_ne _ _ _ _ _
                           (fun hh => hid hh.symm)]
                         exact h))
        all_goals simp [touchesControllers] at ht

/-- C3 (amended): a successful registration records the registering
caller as the asset's controller, and the controller stays non-null
across every transaction sequence whose controller-writing calls all
carry non-null actors (`register` / `acceptTransfer` callers,
`registerDataSubject` subjects, `updateDataController` new
controllers).  Without that restriction the invariant fails:
`updateDataController` accepts the null address, so the current
controller can unset an asset's controller, as the counterexample
shows. -/
theorem controller_registration_and_nonnull (cfg : Config) (a : AssetId) :
    (∀ (s s' : Sys) (caller : Address) (t : Nat) (h1 ty mh : String),
      execOp cfg (.register caller t h1 ty mh) s = .ok s' →
      getAssetController s'.gdpr ⟨h1, caller, t⟩ = caller) ∧
    (∀ (s : Sys) (ops : List Op),
      getAssetController s.gdpr a ≠ 0 →
      (∀ o ∈ ops, keepsControllerNonNull o = true) →
      getAssetController (runOps cfg s ops).gdpr a ≠ 0) := by
  constructor
  · intro s s' caller t h1 ty mh hx
    simp only [execOp, registerIPAsset, registerDataSubject,
      Except.map] at hx
    repeat' split at hx
    all_goals first
      | exact Except.noConfusion hx
      | (injection hx with hx'; subst hx';
         rename_i v heq; repeat' split at heq
         all_goals first
          | exact Except.noConfusion heq
          | (injection heq with heq'; subst heq';
             simp only [getAssetController]
             rw [lookupD_insertA_self]))
  · intro s ops h hgood
    exact runOps_preserves cfg
      (fun s₀ => getAssetController s₀.gdpr a ≠ 0) ops
      (fun o ho s₀ hs₀ => controller_nonnull_step cfg o s₀ a hs₀
        (hgood o ho)) s h

/-- C3 witness: registration by `2` sets the controller to `2`, and a
trace with non-null-actor operations (a controller handoff to `3`, a
transfer accept, role grants) keeps the controller non-null. -/
theorem controller_registration_and_nonnull_witness :
    getAssetController (applyOp ⟨50, 60⟩
      (.register 2 5 "h1" "Copyright" "m1") (initSys 1)).gdpr
      ⟨"h1", 2, 5⟩ = 2 ∧
    getAssetController (runOps ⟨50, 60⟩
      (applyOp ⟨50, 60⟩ (.register 2 5 "h1" "Copyright" "m1") (initSys 1))
      [.gUpdateController 2 ⟨"h1", 2, 5⟩ 3,
       .gGrant 1 50 DATA_CONTROLLER_ROLE,
       .deactivate 2 ⟨"h1", 2, 5⟩]).gdpr ⟨"h1", 2, 5⟩ ≠ 0 :=
  ⟨(controller_registration_and_nonnull ⟨50, 60⟩ ⟨"h1", 2, 5⟩).1
      (initSys 1) _ 2 5 "h1" "Copyright" "m1" rfl,
   (controller_registration_and_nonnull ⟨50, 60⟩ ⟨"h1", 2, 5⟩).2
      (applyOp ⟨50, 60⟩ (.register 2 5 "h1" "Copyright" "m1") (initSys 1))
      [.gUpdateController 2 ⟨"h1", 2, 5⟩ 3,
       .gGrant 1 50 DATA_CONTROLLER_ROLE,
       .deactivate 2 ⟨"h1", 2, 5⟩]
      (by decide) (by decide)⟩
